import Mathlib

/-!
# Unbound Gateway front-end: a shallow embedding

The JavaScript sources under `src/` (the `api` service object and the React
components `Dashboard`, `TerminalInput`, `UserManager`, `RuleManager`) are
embedded as pure Lean functions.

* A React component is a record of its `useState` cells. A handler is a
  function from the state captured by its closure (and the outcome of every
  `await`ed API call, supplied as an argument) to the state after all of its
  setters have run, the list of effects it performed in program order, and,
  where the source returns one, its return value.
* Every `api.*` function is the request it hands to axios; the awaited
  `response.data` is an input of the caller.
* JavaScript values are restricted to the primitives the code reads
  (`Prim`); numbers are integers.
-/

namespace Unbound

/-! ## JavaScript values -/

/-- JavaScript primitive values. Numbers are modelled by integers. -/
inductive Prim where
  | undefined
  | null
  | bool (b : Bool)
  | num (n : Int)
  | str (s : String)
  deriving DecidableEq, Repr

/-- JavaScript truthiness (`if (v)`, `v || w`, `!v`). -/
def Prim.truthy : Prim → Bool
  | .undefined => false
  | .null => false
  | .bool b => b
  | .num n => n != 0
  | .str s => s != ""

/-- The JavaScript expression `a || b`. -/
def Prim.or (a b : Prim) : Prim := if a.truthy then a else b

/-- ECMAScript `WhiteSpace` and `LineTerminator` code points, the characters
removed by `String.prototype.trim` and skipped by `parseInt`. -/
def isJsWhiteSpace (c : Char) : Bool :=
  c.toNat ∈ [0x9, 0xA, 0xB, 0xC, 0xD, 0x20, 0xA0, 0x1680, 0x2028, 0x2029,
    0x202F, 0x205F, 0x3000, 0xFEFF] || (0x2000 ≤ c.toNat && c.toNat ≤ 0x200A)

/-- The method `String.prototype.trim`. -/
def jsTrim (s : String) : String :=
  String.mk ((s.toList.dropWhile isJsWhiteSpace).reverse.dropWhile isJsWhiteSpace).reverse

/-- The test `!s.trim()`: the trimmed string is the empty (falsy) string. -/
def isBlank (s : String) : Bool := jsTrim s == ""

/-- Value of a digit character in the given radix (10 or 16), if it is one. -/
def digitValue (radix : Nat) (c : Char) : Option Nat :=
  let v : Option Nat :=
    if '0' ≤ c ∧ c ≤ '9' then some (c.toNat - '0'.toNat)
    else if 'a' ≤ c ∧ c ≤ 'z' then some (c.toNat - 'a'.toNat + 10)
    else if 'A' ≤ c ∧ c ≤ 'Z' then some (c.toNat - 'A'.toNat + 10)
    else none
  match v with
  | some d => if d < radix then some d else none
  | none => none

/-- Longest run of leading digits of `cs` in the given radix, as digit values. -/
def leadingDigits (radix : Nat) : List Char → List Nat
  | [] => []
  | c :: cs =>
    match digitValue radix c with
    | some d => d :: leadingDigits radix cs
    | none => []

/-- Global `parseInt(string)` called with one argument (ECMA-262 19.2.5):
leading white space is skipped, an optional sign is read, a leading `0x`/`0X`
selects radix 16 (otherwise 10), and the longest run of digits is read; `none`
is `NaN`. The result is the mathematical integer; the JavaScript Number is that
integer rounded to a double (`Infinity` beyond the double range), which has the
same sign, and `-0` is `0` here. -/
def parseInt (s : String) : Option Int :=
  let cs := s.toList.dropWhile isJsWhiteSpace
  let signed : Int × List Char :=
    match cs with
    | '-' :: r => (-1, r)
    | '+' :: r => (1, r)
    | _ => (1, cs)
  let based : Nat × List Char :=
    match signed.2 with
    | '0' :: 'x' :: r => (16, r)
    | '0' :: 'X' :: r => (16, r)
    | r => (10, r)
  let ds := leadingDigits based.1 based.2
  if ds.isEmpty then none
  else some (signed.1 * ((ds.foldl (fun acc d => acc * based.1 + d) 0 : Nat) : Int))

/-- An error caught by a `catch` clause, as far as the code inspects it:
`err.response` (absent for network errors and for a `TypeError`), its
`status`, and `err.response.data?.detail`. -/
structure ErrResponse where
  status : Nat
  detail : Prim
  deriving DecidableEq, Repr

/-- A thrown JavaScript error; `response = none` when `err.response` is undefined. -/
structure JsError where
  response : Option ErrResponse
  deriving DecidableEq, Repr

/-- The expression `err.response?.data?.detail`. -/
def JsError.detail (e : JsError) : Prim :=
  match e.response with
  | some r => r.detail
  | none => .undefined

/-- A `TypeError` raised by reading a property of `null`/`undefined`: it has no `response`. -/
def typeError : JsError := { response := none }

/-! ## Domain records -/

/-- A user record as returned by the backend. -/
structure User where
  id : String
  name : String
  role : Prim
  credits : Prim
  deriving DecidableEq, Repr

/-- The create-user form (`newUser`). -/
structure NewUser where
  name : String
  role : String
  deriving DecidableEq, Repr

/-- The rule form (`formData`). -/
structure RuleForm where
  pattern : String
  action : String
  description : String
  is_active : Bool
  deriving DecidableEq, Repr

/-- A rule record as returned by the backend. -/
structure Rule where
  id : String
  pattern : String
  action : String
  description : String
  is_active : Bool
  created_at : Int
  order_key : Int
  deriving DecidableEq, Repr

/-- An audit entry as returned by `GET /commands/history`. -/
structure CommandEvent where
  id : String
  user_id : String
  command_text : String
  status : Prim
  deriving DecidableEq, Repr

/-- The object returned by `POST /commands/execute`, with the fields the
front-end reads; an absent field is `undefined`. -/
structure ExecResult where
  status : Prim
  remaining_credits : Prim
  message : Prim
  error : Prim
  deriving DecidableEq, Repr

/-- The object returned by `POST /users`; only `api_key` is read. -/
structure CreatedUser where
  api_key : Prim
  deriving DecidableEq, Repr

/-! ## services/api.js -/

/-- HTTP methods used by the client. -/
inductive Method where
  | GET | POST | PUT | DELETE
  deriving DecidableEq, Repr

/-- Which axios instance sends a request: the bare `axios` import or the
configured `apiClient` (base URL `API_BASE`, with interceptors). -/
inductive Client where
  | axios
  | apiClient
  deriving DecidableEq, Repr

/-- Request payloads passed as the `data` argument. -/
inductive Body where
  | none
  | empty
  | credits (credits : Int)
  | userData (d : NewUser)
  | ruleData (d : RuleForm)
  | commandText (command_text : String)
  deriving DecidableEq, Repr

/-- A request handed to axios. `path` is relative to `API_BASE`: `apiClient`
has `baseURL: API_BASE`, and `verifyApiKey` builds its URL as
`API_BASE` followed by the path. `params` is the query-string object and
`headers` the per-call headers. -/
structure Request where
  client : Client
  method : Method
  path : String
  data : Body
  params : List (String × Prim)
  headers : List (String × String)
  deriving DecidableEq, Repr

namespace api

/-- Function `api.verifyApiKey(apiKey)`. -/
def verifyApiKey (apiKey : String) : Request :=
  { client := .axios, method := .POST, path := "/auth/verify", data := .empty,
    params := [], headers := [("X-API-Key", apiKey)] }

/-- Function `api.getAllUsers()`. -/
def getAllUsers : Request :=
  { client := .apiClient, method := .GET, path := "/users", data := .none,
    params := [], headers := [] }

/-- Function `api.createUser(userData)`. -/
def createUser (userData : NewUser) : Request :=
  { client := .apiClient, method := .POST, path := "/users", data := .userData userData,
    params := [], headers := [] }

/-- Function `api.updateUserCredits(userId, credits)`. -/
def updateUserCredits (userId : String) (credits : Int) : Request :=
  { client := .apiClient, method := .PUT, path := "/users/" ++ userId ++ "/credits",
    data := .credits credits, params := [], headers := [] }

/-- Function `api.deleteUser(userId)`. -/
def deleteUser (userId : String) : Request :=
  { client := .apiClient, method := .DELETE, path := "/users/" ++ userId, data := .none,
    params := [], headers := [] }

/-- Function `api.getRules()`. -/
def getRules : Request :=
  { client := .apiClient, method := .GET, path := "/rules", data := .none,
    params := [], headers := [] }

/-- Function `api.createRule(ruleData)`. -/
def createRule (ruleData : RuleForm) : Request :=
  { client := .apiClient, method := .POST, path := "/rules", data := .ruleData ruleData,
    params := [], headers := [] }

/-- Function `api.deleteRule(ruleId)`. -/
def deleteRule (ruleId : String) : Request :=
  { client := .apiClient, method := .DELETE, path := "/rules/" ++ ruleId, data := .none,
    params := [], headers := [] }

/-- Function `api.updateRule(ruleId, ruleData)`. -/
def updateRule (ruleId : String) (ruleData : RuleForm) : Request :=
  { client := .apiClient, method := .PUT, path := "/rules/" ++ ruleId, data := .ruleData ruleData,
    params := [], headers := [] }

/-- Function `api.executeCommand(commandText)`. -/
def executeCommand (commandText : String) : Request :=
  { client := .apiClient, method := .POST, path := "/commands/execute",
    data := .commandText commandText, params := [], headers := [] }

/-- Function `api.getCommandHistory(isAdmin = false)`: a missing (undefined)
argument takes the default `false`. -/
def getCommandHistory (isAdmin : Option Bool) : Request :=
  let isAdmin := isAdmin.getD false
  { client := .apiClient, method := .GET, path := "/commands/history", data := .none,
    params := [("admin_view", .bool isAdmin)], headers := [] }

end api

/-- A call of one member of the exported `api` object, with its arguments. -/
inductive ApiCall where
  | verifyApiKey (apiKey : String)
  | getAllUsers
  | createUser (userData : NewUser)
  | updateUserCredits (userId : String) (credits : Int)
  | deleteUser (userId : String)
  | getRules
  | createRule (ruleData : RuleForm)
  | deleteRule (ruleId : String)
  | updateRule (ruleId : String) (ruleData : RuleForm)
  | executeCommand (commandText : String)
  | getCommandHistory (isAdmin : Option Bool)
  deriving DecidableEq, Repr

/-- The single request issued by a call of a member of `api`. -/
def ApiCall.request : ApiCall → Request
  | .verifyApiKey k => api.verifyApiKey k
  | .getAllUsers => api.getAllUsers
  | .createUser d => api.createUser d
  | .updateUserCredits i c => api.updateUserCredits i c
  | .deleteUser i => api.deleteUser i
  | .getRules => api.getRules
  | .createRule d => api.createRule d
  | .deleteRule i => api.deleteRule i
  | .updateRule i d => api.updateRule i d
  | .executeCommand t => api.executeCommand t
  | .getCommandHistory a => api.getCommandHistory a

/-- The operations of section 6 of the specification, as method and path
(relative to the API base); `{id}` stands for an arbitrary identifier. -/
def isSection6Operation (m : Method) (p : String) : Prop :=
  (m = .POST ∧ p = "/auth/verify") ∨
  (m = .GET ∧ p = "/users") ∨
  (m = .POST ∧ p = "/users") ∨
  (m = .PUT ∧ ∃ id : String, p = "/users/" ++ id ++ "/credits") ∨
  (m = .DELETE ∧ ∃ id : String, p = "/users/" ++ id) ∨
  (m = .GET ∧ p = "/rules") ∨
  (m = .POST ∧ p = "/rules") ∨
  (m = .PUT ∧ ∃ id : String, p = "/rules/" ++ id) ∨
  (m = .DELETE ∧ ∃ id : String, p = "/rules/" ++ id) ∨
  (m = .POST ∧ p = "/commands/execute") ∨
  (m = .GET ∧ p = "/commands/history")

/-! ## Effects -/

/-- The argument object of a `toast(...)` call. -/
structure Toast where
  variant : Option String
  title : String
  description : Prim
  className : Option String
  deriving DecidableEq, Repr

/-- Observable effects of a handler, in program order. -/
inductive Effect where
  | request (r : Request)
  | toast (t : Toast)
  | confirm (message : String)
  | consoleError (label : String)
  | uncaughtTypeError
  deriving DecidableEq, Repr

/-- The requests among a list of effects. -/
def requestsOf : List Effect → List Request
  | [] => []
  | .request r :: es => r :: requestsOf es
  | _ :: es => requestsOf es

/-- The toasts among a list of effects. -/
def toastsOf : List Effect → List Toast
  | [] => []
  | .toast t :: es => t :: toastsOf es
  | _ :: es => toastsOf es

/-! ## components/Dashboard.jsx -/

/-- What `handleCommandSubmit` returns: nothing (`return;`), the object
`{ error: e }`, or the API result itself. -/
inductive SubmitResult where
  | undefined
  | errorObj (e : Prim)
  | result (r : ExecResult)
  deriving DecidableEq, Repr

/-- The read `result.error`; `none` is the `TypeError` of reading a property of `undefined`. -/
def SubmitResult.getError : SubmitResult → Option Prim
  | .undefined => none
  | .errorObj e => some e
  | .result r => some r.error

/-- The read `result.status` (after `result.error` succeeded). -/
def SubmitResult.getStatus : SubmitResult → Prim
  | .undefined => .undefined
  | .errorObj _ => .undefined
  | .result r => r.status

namespace Dashboard

/-- The `useState` cells of `Dashboard`. -/
structure State where
  credits : Prim
  commandHistory : List CommandEvent
  isAnalyzing : Bool
  deriving DecidableEq, Repr

/-- Initial state: `useState(user.credits)`, `useState([])`, `useState(false)`. -/
def init (user : User) : State :=
  { credits := user.credits, commandHistory := [], isAnalyzing := false }

/-- The constant `isAdmin = user.role === 'admin'`. -/
def isAdmin (user : User) : Bool := decide (user.role = .str "admin")

/-- Function `loadCommandHistory`; `history` is the outcome of
`await api.getCommandHistory(isAdmin)`. -/
def loadCommandHistory (user : User) (history : Except JsError (List CommandEvent))
    (s : State) : State × List Effect :=
  let req := Effect.request (api.getCommandHistory (some (isAdmin user)))
  match history with
  | .ok h => ({ s with commandHistory := h }, [req])
  | .error _ => (s, [req, .consoleError "Failed to load command history:"])

/-- Function `handleCommandSubmit`; `exec` is the outcome of
`await api.executeCommand(commandText)` (`.ok none` is a `null`/`undefined`
body, whose `.status` read throws inside the `try`; any other non-object
body reads like an object without fields), `history` the outcome of the
history reload. The `finally` clause resets `isAnalyzing`. -/
def handleCommandSubmit (user : User) (commandText : String)
    (exec : Except JsError (Option ExecResult))
    (history : Except JsError (List CommandEvent))
    (s : State) : State × List Effect × SubmitResult :=
  if isBlank commandText then (s, [], .undefined)
  else
    let req := Effect.request (api.executeCommand commandText)
    match exec with
    | .ok (some result) =>
      if result.status = .str "INSUFFICIENT_CREDITS" then
        ({ s with isAnalyzing := false }, [req], .errorObj result.message)
      else
        let s1 := { s with credits := result.remaining_credits }
        let r := loadCommandHistory user history s1
        ({ r.1 with isAnalyzing := false }, req :: r.2, .result result)
    | .ok none =>
      ({ s with isAnalyzing := false }, [req, .consoleError "Command execution error:"],
        .errorObj (typeError.detail.or (.str "Failed to execute command")))
    | .error err =>
      ({ s with isAnalyzing := false }, [req, .consoleError "Command execution error:"],
        .errorObj (err.detail.or (.str "Failed to execute command")))

/-- Function `handleCreditsUpdate`. -/
def handleCreditsUpdate (newCredits : Prim) (s : State) : State :=
  { s with credits := newCredits }

end Dashboard

/-! ## components/TerminalInput.jsx -/

namespace TerminalInput

/-- The `useState` cell of `TerminalInput`. -/
structure State where
  command : String
  deriving DecidableEq, Repr

/-- The toast chosen after `await onSubmit(command)`; `none` when no branch applies. -/
def resultToast (command : String) (error status : Prim) : Option Toast :=
  if error.truthy then
    some { variant := some "destructive", title := "Command Failed",
           description := error, className := none }
  else if status = .str "EXECUTED" then
    some { variant := none, title := "Command Executed",
           description := .str ("Successfully executed: " ++ command),
           className := some "bg-green-950 border-green-900 text-green-400" }
  else if status = .str "BLOCKED" then
    some { variant := some "destructive", title := "Command Blocked",
           description := .str "Security policy prevented execution", className := none }
  else if status = .str "NO_MATCH" then
    some { variant := none, title := "No Rule Match",
           description := .str "Command did not match any configured rules",
           className := some "bg-yellow-950 border-yellow-900 text-yellow-400" }
  else none

/-- Function `handleSubmit`. The props are `onSubmit` (a handler of the parent,
acting on the parent state `σ`) and `isAnalyzing`. Reading `result.error` of an
`undefined` result throws, which ends the handler before `setCommand('')`. -/
def handleSubmit {σ : Type} (onSubmit : String → σ → σ × List Effect × SubmitResult)
    (isAnalyzing : Bool) (s : State) (parent : σ) : State × σ × List Effect :=
  if isBlank s.command || isAnalyzing then (s, parent, [])
  else
    let r := onSubmit s.command parent
    let result := r.2.2
    match result.getError with
    | none => (s, r.1, r.2.1 ++ [.uncaughtTypeError])
    | some error =>
      match resultToast s.command error result.getStatus with
      | some t => ({ s with command := "" }, r.1, r.2.1 ++ [.toast t])
      | none => ({ s with command := "" }, r.1, r.2.1)

end TerminalInput

/-! ## components/UserManager.jsx -/

namespace UserManager

/-- The `useState` cells of `UserManager`. -/
structure State where
  users : List User
  isCreateDialogOpen : Bool
  isEditDialogOpen : Bool
  isKeyModalOpen : Bool
  selectedUser : Option User
  newUserApiKey : Prim
  newUser : NewUser
  creditUpdate : String
  deriving DecidableEq, Repr

/-- Initial state of the component. -/
def init : State :=
  { users := [], isCreateDialogOpen := false, isEditDialogOpen := false,
    isKeyModalOpen := false, selectedUser := none, newUserApiKey := .str "",
    newUser := { name := "", role := "member" }, creditUpdate := "" }

/-- Function `loadUsers`; `reload` is the outcome of `await api.getAllUsers()`. -/
def loadUsers (reload : Except JsError (List User)) (s : State) : State × List Effect :=
  match reload with
  | .ok usersData => ({ s with users := usersData }, [.request api.getAllUsers])
  | .error _ => (s, [.request api.getAllUsers, .consoleError "Failed to load users:"])

/-- A destructive toast with the given title and description. -/
def destructive (title : String) (description : Prim) : Toast :=
  { variant := some "destructive", title := title, description := description, className := none }

/-- A green success toast with the given title and description. -/
def success (title : String) (description : String) : Toast :=
  { variant := none, title := title, description := .str description,
    className := some "bg-green-950 border-green-900 text-green-400" }

/-- Function `handleCreateUser`; `create` is the outcome of
`await api.createUser(newUser)` (`.ok none` is a `null`/`undefined` body, whose
`.api_key` read throws inside the `try`), `reload` that of the users reload. -/
def handleCreateUser (create : Except JsError (Option CreatedUser))
    (reload : Except JsError (List User)) (s : State) : State × List Effect :=
  if isBlank s.newUser.name then
    (s, [.toast (destructive "Validation Error" (.str "User name is required"))])
  else
    let req := Effect.request (api.createUser s.newUser)
    match create with
    | .ok (some createdUser) =>
      let s1 := { s with newUserApiKey := createdUser.api_key, isCreateDialogOpen := false,
                         isKeyModalOpen := true, newUser := { name := "", role := "member" } }
      let r := loadUsers reload s1
      (r.1, req :: r.2)
    | .ok none =>
      (s, [req, .toast (destructive "Error" (typeError.detail.or (.str "Failed to create user")))])
    | .error err =>
      (s, [req, .toast (destructive "Error" (err.detail.or (.str "Failed to create user")))])

/-- The toast shown for an input that is not a non-negative number. -/
def invalidInputToast : Toast := destructive "Invalid Input" (.str "Please enter a valid number")

/-- Function `handleUpdateCredits`; `update` is the outcome of
`await api.updateUserCredits(selectedUser.id, newCredits)` and `reload` that of
the users reload. With `selectedUser` null the argument `selectedUser.id`
throws inside the `try` before any request is made. -/
def handleUpdateCredits (update : Except JsError Unit)
    (reload : Except JsError (List User)) (s : State) : State × List Effect :=
  match parseInt s.creditUpdate with
  | none => (s, [.toast invalidInputToast])
  | some newCredits =>
    if newCredits < 0 then (s, [.toast invalidInputToast])
    else
      match s.selectedUser with
      | none =>
        (s, [.toast (destructive "Error" (typeError.detail.or (.str "Failed to update credits")))])
      | some selectedUser =>
        let req := Effect.request (api.updateUserCredits selectedUser.id newCredits)
        match update with
        | .ok _ =>
          let s1 := { s with
            users := s.users.map (fun u =>
              if u.id = selectedUser.id then { u with credits := .num newCredits } else u),
            isEditDialogOpen := false, selectedUser := none, creditUpdate := "" }
          let t := success "Credits Updated"
            (selectedUser.name ++ "\x27s credits set to " ++ toString newCredits)
          let r := loadUsers reload s1
          (r.1, [req, .toast t] ++ r.2)
        | .error err =>
          (s, [req, .toast (destructive "Error" (err.detail.or (.str "Failed to update credits")))])

/-- The toast shown when an admin tries to delete their own record. -/
def cannotDeleteToast : Toast :=
  destructive "Cannot Delete" (.str "You cannot delete your own account")

/-- Function `handleDeleteUser(user)`; `currentUser` is the prop (`none` when
null), `confirmed` the answer of `window.confirm`, `delete` the outcome of
`await api.deleteUser(user.id)`. -/
def handleDeleteUser (currentUser : Option User) (user : User) (confirmed : Bool)
    (delete : Except JsError Unit) (s : State) : State × List Effect :=
  let isSelf : Bool :=
    match currentUser with
    | some c => decide (user.id = c.id)
    | none => false
  if isSelf then (s, [.toast cannotDeleteToast])
  else
    let ask := Effect.confirm ("Are you sure you want to delete user \"" ++ user.name ++
      "\"? This action cannot be undone.")
    if !confirmed then (s, [ask])
    else
      let req := Effect.request (api.deleteUser user.id)
      match delete with
      | .ok _ =>
        ({ s with users := s.users.filter (fun u => decide (u.id ≠ user.id)) },
          [ask, req, .toast (success "User Deleted" (user.name ++ " has been removed"))])
      | .error err =>
        (s, [ask, req, .toast (destructive "Error" (err.detail.or (.str "Failed to delete user")))])

/-- The `onChange` handler of the name input: `setNewUser({ ...newUser, name: value })`. -/
def setNewUserName (value : String) (s : State) : State :=
  { s with newUser := { s.newUser with name := value } }

/-- The `onOpenChange` prop of the API-key modal, `setIsKeyModalOpen`: the
dialog calls it with `false` on Escape, on an outside click and on its own
close icon. -/
def keyModalOnOpenChange (isOpen : Bool) (s : State) : State :=
  { s with isKeyModalOpen := isOpen }

/-- The `onClick` handler of the button closing the API-key modal:
`setIsKeyModalOpen(false); setNewUserApiKey('')`. -/
def keyModalCloseButton (s : State) : State :=
  { s with isKeyModalOpen := false, newUserApiKey := .str "" }

/-- User and server events that drive the API-key modal. Typing the name is
included because `handleCreateUser` returns before any request while the name
held in the state is blank, as it is initially. -/
inductive KeyEvent where
  | typeName (value : String)
  | createUser (create : Except JsError (Option CreatedUser)) (reload : Except JsError (List User))
  | onOpenChange (isOpen : Bool)
  | closeButton

/-- One event applied to the component state. -/
def keyStep (s : State) : KeyEvent → State
  | .typeName v => setNewUserName v s
  | .createUser create reload => (handleCreateUser create reload s).1
  | .onOpenChange b => keyModalOnOpenChange b s
  | .closeButton => keyModalCloseButton s

/-- The state reached from `init` by a sequence of events. -/
def keyRun (events : List KeyEvent) : State := events.foldl keyStep init

end UserManager

/-! ## components/RuleManager.jsx -/

namespace RuleManager

/-- The `useState` cells of `RuleManager`. -/
structure State where
  rules : List Rule
  isDialogOpen : Bool
  editingRule : Option Rule
  formData : RuleForm
  deriving DecidableEq, Repr

/-- Initial state of the component. -/
def init : State :=
  { rules := [], isDialogOpen := false, editingRule := none,
    formData := { pattern := "", action := "AUTO_ACCEPT", description := "", is_active := true } }

/-- The toast shown when `new RegExp(formData.pattern)` throws. -/
def invalidRegexToast : Toast :=
  { variant := some "destructive", title := "Invalid Regex",
    description := .str "Please provide a valid regular expression pattern", className := none }

/-- A green success toast. -/
def success (title description : String) : Toast :=
  { variant := none, title := title, description := .str description,
    className := some "bg-green-950 border-green-900 text-green-400" }

/-- The toast of the final `catch` clause. -/
def saveErrorToast (err : JsError) : Toast :=
  { variant := some "destructive", title := "Error",
    description := err.detail.or (.str "Failed to save rule"), className := none }

/-- Function `handleSaveRule`. The constructor `new RegExp(pattern)` belongs to
the JavaScript engine and is taken as the parameter `regExpCompiles` (`false`
when it throws); `save` is the outcome of the awaited `api.updateRule` or
`api.createRule` call. -/
def handleSaveRule (regExpCompiles : String → Bool) (save : Except JsError Rule)
    (s : State) : State × List Effect :=
  if isBlank s.formData.pattern then
    (s, [.toast { variant := some "destructive", title := "Validation Error",
                  description := .str "Pattern is required", className := none }])
  else if !regExpCompiles s.formData.pattern then
    (s, [.toast invalidRegexToast])
  else
    match s.editingRule with
    | some editingRule =>
      let req := Effect.request (api.updateRule editingRule.id s.formData)
      match save with
      | .ok updatedRule =>
        ({ s with
            rules := s.rules.map (fun r => if r.id = editingRule.id then updatedRule else r),
            isDialogOpen := false },
          [req, .toast (success "Rule Updated"
            "Rule configuration has been updated successfully")])
      | .error err => (s, [req, .toast (saveErrorToast err)])
    | none =>
      let req := Effect.request (api.createRule s.formData)
      match save with
      | .ok addedRule =>
        ({ s with rules := addedRule :: s.rules, isDialogOpen := false },
          [req, .toast (success "Rule Added" "New rule has been configured successfully")])
      | .error err => (s, [req, .toast (saveErrorToast err)])

/-- Function `handleDeleteRule(ruleId)`; `delete` is the outcome of
`await api.deleteRule(ruleId)`. -/
def handleDeleteRule (ruleId : String) (delete : Except JsError Unit)
    (s : State) : State × List Effect :=
  let req := Effect.request (api.deleteRule ruleId)
  match delete with
  | .ok _ =>
    ({ s with rules := s.rules.filter (fun r => decide (r.id ≠ ruleId)) },
      [req, .toast { variant := none, title := "Rule Deleted",
                     description := .str "Rule has been removed from the system",
                     className := none }])
  | .error err =>
    (s, [req, .toast { variant := some "destructive", title := "Error",
                       description := err.detail.or (.str "Failed to delete rule"),
                       className := none }])

/-- A message echoes a pattern when the pattern occurs in its title or in its
description as a contiguous piece of text. -/
def echoes (t : Toast) (pattern : String) : Prop :=
  pattern.toList <:+: t.title.toList ∨
    ∃ d : String, t.description = .str d ∧ pattern.toList <:+: d.toList

/-- A regular-expression oracle for concrete evaluation. It agrees with
ECMAScript on the patterns it is applied to below: `new RegExp("(")` throws
`SyntaxError` (unterminated group), `new RegExp("^ls")` succeeds. -/
def sampleRegExpCompiles (pattern : String) : Bool := pattern != "("

end RuleManager

/-! ## services/api.js: storage and interceptors -/

/-- The browser `localStorage`, as a list of key/value entries. -/
abbrev Storage := List (String × String)

/-- Method `localStorage.getItem(key)`; `none` is `null`. -/
def Storage.getItem (st : Storage) (key : String) : Option String := st.lookup key

/-- Method `localStorage.removeItem(key)`. -/
def Storage.removeItem (st : Storage) (key : String) : Storage :=
  st.filter (fun e => e.1 != key)

/-- The assignment `headers[name] = value` on a headers object. -/
def setHeader (headers : List (String × String)) (name value : String) :
    List (String × String) :=
  if headers.any (fun h => h.1 == name) then
    headers.map (fun h => if h.1 == name then (name, value) else h)
  else headers ++ [(name, value)]

/-- The success handler of `apiClient.interceptors.request`. -/
def requestInterceptor (storage : Storage) (config : Request) : Request :=
  match storage.getItem "unbound_key" with
  | some apiKey =>
    if apiKey != "" then { config with headers := setHeader config.headers "X-API-Key" apiKey }
    else config
  | none => config

/-- The default headers given to `axios.create` for `apiClient`. -/
def apiClientDefaults : List (String × String) := [("Content-Type", "application/json")]

/-- The configuration that leaves the client: a request of `apiClient` gets the
instance defaults (overridden by its own headers) and passes through the
request interceptor; a request of the bare `axios` import, on which no
interceptor is registered, is sent as it is. -/
def sentConfig (storage : Storage) (r : Request) : Request :=
  match r.client with
  | .apiClient =>
    requestInterceptor storage
      { r with headers := r.headers.foldl (fun hs h => setHeader hs h.1 h.2) apiClientDefaults }
  | .axios => r

/-- What the error handler of `apiClient.interceptors.response` does: the
storage afterwards, the keys passed to `removeItem` in order, the value
assigned to `window.location.href` (if any), and the error the returned
promise is rejected with. -/
structure Rejection where
  storage : Storage
  removed : List String
  href : Option String
  rejected : JsError
  deriving DecidableEq, Repr

/-- The error handler of `apiClient.interceptors.response`. -/
def responseErrorInterceptor (storage : Storage) (error : JsError) : Rejection :=
  if error.response.map (fun r => r.status) = some 401 then
    { storage := (storage.removeItem "unbound_key").removeItem "unbound_user",
      removed := ["unbound_key", "unbound_user"], href := some "/", rejected := error }
  else { storage := storage, removed := [], href := none, rejected := error }

/-! ## components/Login.jsx -/

namespace Login

/-- The `user` field of the verify response: a user record, or a primitive
(`undefined` when the field is absent). -/
inductive UserField where
  | record (u : User)
  | prim (p : Prim)
  deriving DecidableEq, Repr

/-- Truthiness of the `user` field: every object is truthy. -/
def UserField.truthy : UserField → Bool
  | .record _ => true
  | .prim p => p.truthy

/-- The object returned by `POST /auth/verify`, with the fields the code may
pass on; the backend returns `{ status, user }`. -/
structure VerifyResponse where
  status : Prim
  user : UserField
  deriving DecidableEq, Repr

/-- The second argument of `onLogin`: the value of `response.user || response`. -/
inductive UserData where
  | user (u : UserField)
  | response (r : VerifyResponse)
  deriving DecidableEq, Repr

/-- The `useState` cells of `Login`. -/
structure State where
  apiKey : String
  loading : Bool
  error : Prim
  deriving DecidableEq, Repr

/-- The outcome of `await api.verifyApiKey(apiKey)`: the promise is rejected
with an error (`message` is `err.message`), or resolved with a body, `none`
being a `null`/`undefined` body. -/
inductive VerifyOutcome where
  | rejected (err : JsError) (message : Prim)
  | resolved (body : Option VerifyResponse)
  deriving DecidableEq, Repr

/-- What `handleSubmit` did: the state after its setters, the requests it
issued, and the argument pairs of its calls of `onLogin`, in order. -/
structure Run where
  state : State
  requests : List Request
  logins : List (String × UserData)
  deriving DecidableEq, Repr

/-- Function `handleSubmit`. `typeErrorMessage` is the engine text of the
`TypeError` raised by `response.user` on a `null`/`undefined` body, which the
`catch` clause shows as `err.message`. -/
def handleSubmit (typeErrorMessage : String) (verify : VerifyOutcome) (s : State) : Run :=
  if isBlank s.apiKey then
    { state := { s with error := .str "Please enter an API key" }, requests := [], logins := [] }
  else
    let req := api.verifyApiKey s.apiKey
    match verify with
    | .resolved (some response) =>
      let userData : UserData :=
        if response.user.truthy then .user response.user else .response response
      { state := { s with error := .str "", loading := false }, requests := [req],
        logins := [(s.apiKey, userData)] }
    | .resolved none =>
      { state := { s with
          error := (typeError.detail.or (.str typeErrorMessage)).or (.str "Authentication failed"),
          loading := false },
        requests := [req], logins := [] }
    | .rejected err message =>
      { state := { s with
          error := (err.detail.or message).or (.str "Authentication failed"), loading := false },
        requests := [req], logins := [] }

end Login

/-! ## Order of the rules list -/

/-- The order of `GET /rules`: `order_key` ascending, ties by `created_at`
ascending, then by `id` ascending. -/
def ruleLe (a b : Rule) : Prop :=
  a.order_key < b.order_key ∨
    (a.order_key = b.order_key ∧
      (a.created_at < b.created_at ∨ (a.created_at = b.created_at ∧ a.id ≤ b.id)))

instance ruleLeDecidable : DecidableRel ruleLe := fun a b =>
  inferInstanceAs (Decidable (a.order_key < b.order_key ∨
    (a.order_key = b.order_key ∧
      (a.created_at < b.created_at ∨ (a.created_at = b.created_at ∧ a.id ≤ b.id)))))

/-- A rules list is in the order of `GET /rules`. -/
def rulesSorted (rules : List Rule) : Prop := rules.Pairwise ruleLe

instance rulesSortedDecidable (rules : List Rule) : Decidable (rulesSorted rules) :=
  inferInstanceAs (Decidable (rules.Pairwise ruleLe))

/-! ## components/UserManager.jsx: the props -/

namespace UserManager

/-- Function `handleUpdateCredits` of the component
`UserManager({ onCreditsUpdate, currentUser })` rendered by a parent with state
`σ`, with the prop `onCreditsUpdate` in scope. `calls` lists the arguments of
the calls of `onCreditsUpdate` made by the handler, in order: lines 105-140
contain none (the prop is named only in the parameter list, line 27). -/
def handleUpdateCreditsWithProps {σ : Type} (onCreditsUpdate : Prim → σ → σ)
    (update : Except JsError Unit) (reload : Except JsError (List User))
    (s : State) (parent : σ) : State × σ × List Effect :=
  let r := handleUpdateCredits update reload s
  let calls : List Prim := []
  (r.1, calls.foldl (fun q n => onCreditsUpdate n q) parent, r.2)

end UserManager

/-! ## components/CommandLog.jsx -/

namespace CommandLog

/-- The props of `CommandLog`. -/
structure Props where
  commands : List CommandEvent
  isAdmin : Bool
  deriving DecidableEq, Repr

/-- An icon element: the component and its `size` and `className` props. -/
structure Icon where
  component : String
  size : Nat
  className : String
  deriving DecidableEq, Repr

/-- Function `getStatusIcon(status)`; `switch` compares with `===`. -/
def getStatusIcon (status : Prim) : Icon :=
  if status = .str "EXECUTED" then
    { component := "CheckCircle", size := 18, className := "text-green-500" }
  else if status = .str "BLOCKED" then
    { component := "ShieldAlert", size := 18, className := "text-red-500" }
  else { component := "HelpCircle", size := 18, className := "text-yellow-500" }

/-- Function `getStatusColor(status)`. -/
def getStatusColor (status : Prim) : String :=
  if status = .str "EXECUTED" then "border-green-500"
  else if status = .str "BLOCKED" then "border-red-500"
  else "border-yellow-500"

/-- The conditional expression interpolated into the `className` of the status
badge (lines 97-101). -/
def statusBadgeClass (status : Prim) : String :=
  if status = .str "EXECUTED" then "bg-green-500/10 text-green-400 border-green-500/50"
  else if status = .str "BLOCKED" then "bg-red-500/10 text-red-400 border-red-500/50"
  else "bg-yellow-500/10 text-yellow-400 border-yellow-500/50"

/-- The heading of the log (line 45). -/
def title (isAdmin : Bool) : String :=
  if isAdmin then "System Audit Log" else "Command History"

/-- The three colours of the status display. -/
inductive Colour where
  | green | red | yellow
  deriving DecidableEq, Repr

/-- The name of a colour in a class name. -/
def Colour.name : Colour → String
  | .green => "green"
  | .red => "red"
  | .yellow => "yellow"

/-- Whether `needle` occurs in the list as a contiguous run. -/
def hasInfix (needle : List Char) : List Char → Bool
  | [] => needle.isEmpty
  | c :: cs => needle.isPrefixOf (c :: cs) || hasInfix needle cs

/-- The colours named by a class string. -/
def classColours (cls : String) : List Colour :=
  [Colour.green, Colour.red, Colour.yellow].filter
    (fun c => hasInfix c.name.toList cls.toList)

end CommandLog

/-! ## components/Dashboard.jsx: render and the submit cycle -/

namespace Dashboard

/-- The `CommandLog` elements of the JSX returned by `Dashboard` (lines 107-150),
in source order: for an admin the one of the terminal tab and the one of the
audit tab, otherwise the single one below the terminal. -/
def commandLogs (user : User) (s : State) : List CommandLog.Props :=
  if isAdmin user then
    [{ commands := s.commandHistory, isAdmin := false },
     { commands := s.commandHistory, isAdmin := true }]
  else [{ commands := s.commandHistory, isAdmin := false }]

/-- Function `handleCommandSubmit` up to its first `await`: the blank check,
`setIsAnalyzing(true)` and the call of `api.executeCommand`. -/
def beginCommandSubmit (commandText : String) (s : State) : State × List Effect :=
  if isBlank commandText then (s, [])
  else ({ s with isAnalyzing := true }, [.request (api.executeCommand commandText)])

end Dashboard

namespace TerminalInput

/-- The argument of the call `onSubmit(command)` made by `handleSubmit`, if the
guard `!command.trim() || isAnalyzing` lets it be made. -/
def onSubmitCall (isAnalyzing : Bool) (s : State) : Option String :=
  if isBlank s.command || isAnalyzing then none else some s.command

end TerminalInput

/-- The terminal inside the dashboard over time: both component states and the
command texts of the `handleCommandSubmit` calls that were started and have not
run to their end, oldest first. -/
structure Session where
  dashboard : Dashboard.State
  terminal : TerminalInput.State
  inFlight : List String
  deriving DecidableEq, Repr

/-- The session after the first render. -/
def Session.init (user : User) : Session :=
  { dashboard := Dashboard.init user, terminal := { command := "" }, inFlight := [] }

/-- What happens to a session: the input changes, the form is submitted, or the
oldest pending `handleCommandSubmit` call receives the outcome of its execute
request (and of its history reload) and runs to its end. -/
inductive SessionEvent where
  | change (value : String)
  | submit
  | settle (exec : Except JsError (Option ExecResult))
      (history : Except JsError (List CommandEvent))

/-- One event applied to a session. On `submit`, `TerminalInput.handleSubmit`
runs to the `await` inside `onSubmit`; on `settle`, the rest of both handlers
runs, with the command and the `isAnalyzing = false` captured at submit time. -/
def sessionStep (user : User) (x : Session) : SessionEvent → Session
  | .change value => { x with terminal := { command := value } }
  | .submit =>
    match TerminalInput.onSubmitCall x.dashboard.isAnalyzing x.terminal with
    | none => x
    | some command =>
      { x with dashboard := (Dashboard.beginCommandSubmit command x.dashboard).1,
               inFlight := x.inFlight ++ [command] }
  | .settle exec history =>
    match x.inFlight with
    | [] => x
    | command :: rest =>
      let r := TerminalInput.handleSubmit
        (fun t q => Dashboard.handleCommandSubmit user t exec history q)
        false { command := command } x.dashboard
      { dashboard := r.2.1,
        terminal := if Effect.uncaughtTypeError ∈ r.2.2 then x.terminal else r.1,
        inFlight := rest }

/-- The session reached from the first render by a sequence of events. -/
def sessionRun (user : User) (events : List SessionEvent) : Session :=
  events.foldl (sessionStep user) (Session.init user)

end Unbound

/-! ## Theorems -/

namespace Unbound

/-- C1: every member of the `api` object issues exactly the request of its
row in the table of section 6 (method and path relative to the API base;
`updateUserCredits(id, c)` with body `{credits: c}`), and the request of any
`api` call is one of the section 6 operations. -/
theorem api_requests_match_section6 :
    (∀ k, (api.verifyApiKey k).method = .POST ∧ (api.verifyApiKey k).path = "/auth/verify") ∧
    (api.getAllUsers.method = .GET ∧ api.getAllUsers.path = "/users") ∧
    (∀ d, (api.createUser d).method = .POST ∧ (api.createUser d).path = "/users") ∧
    (∀ id c, (api.updateUserCredits id c).method = .PUT ∧
      (api.updateUserCredits id c).path = "/users/" ++ id ++ "/credits" ∧
      (api.updateUserCredits id c).data = .credits c) ∧
    (∀ id, (api.deleteUser id).method = .DELETE ∧ (api.deleteUser id).path = "/users/" ++ id) ∧
    (api.getRules.method = .GET ∧ api.getRules.path = "/rules") ∧
    (∀ d, (api.createRule d).method = .POST ∧ (api.createRule d).path = "/rules") ∧
    (∀ id d, (api.updateRule id d).method = .PUT ∧ (api.updateRule id d).path = "/rules/" ++ id) ∧
    (∀ id, (api.deleteRule id).method = .DELETE ∧ (api.deleteRule id).path = "/rules/" ++ id) ∧
    (∀ t, (api.executeCommand t).method = .POST ∧
      (api.executeCommand t).path = "/commands/execute") ∧
    (∀ a, (api.getCommandHistory a).method = .GET ∧
      (api.getCommandHistory a).path = "/commands/history") ∧
    (∀ c : ApiCall, isSection6Operation c.request.method c.request.path) := by
  refine ⟨fun _ => ⟨rfl, rfl⟩, ⟨rfl, rfl⟩, fun _ => ⟨rfl, rfl⟩, fun _ _ => ⟨rfl, rfl, rfl⟩,
    fun _ => ⟨rfl, rfl⟩, ⟨rfl, rfl⟩, fun _ => ⟨rfl, rfl⟩, fun _ _ => ⟨rfl, rfl⟩,
    fun _ => ⟨rfl, rfl⟩, fun _ => ⟨rfl, rfl⟩, fun _ => ⟨rfl, rfl⟩, ?_⟩
  intro c
  unfold isSection6Operation
  cases c with
  | verifyApiKey k => exact Or.inl ⟨rfl, rfl⟩
  | getAllUsers => exact Or.inr (Or.inl ⟨rfl, rfl⟩)
  | createUser d => exact Or.inr (Or.inr (Or.inl ⟨rfl, rfl⟩))
  | updateUserCredits i c => exact Or.inr (Or.inr (Or.inr (Or.inl ⟨rfl, i, rfl⟩)))
  | deleteUser i => exact Or.inr (Or.inr (Or.inr (Or.inr (Or.inl ⟨rfl, i, rfl⟩))))
  | getRules => exact Or.inr (Or.inr (Or.inr (Or.inr (Or.inr (Or.inl ⟨rfl, rfl⟩)))))
  | createRule d =>
    exact Or.inr (Or.inr (Or.inr (Or.inr (Or.inr (Or.inr (Or.inl ⟨rfl, rfl⟩))))))
  | deleteRule i =>
    exact Or.inr (Or.inr (Or.inr (Or.inr (Or.inr (Or.inr (Or.inr (Or.inr
      (Or.inl ⟨rfl, i, rfl⟩))))))))
  | updateRule i d =>
    exact Or.inr (Or.inr (Or.inr (Or.inr (Or.inr (Or.inr (Or.inr (Or.inl ⟨rfl, i, rfl⟩)))))))
  | executeCommand t =>
    exact Or.inr (Or.inr (Or.inr (Or.inr (Or.inr (Or.inr (Or.inr (Or.inr (Or.inr
      (Or.inl ⟨rfl, rfl⟩)))))))))
  | getCommandHistory a =>
    exact Or.inr (Or.inr (Or.inr (Or.inr (Or.inr (Or.inr (Or.inr (Or.inr (Or.inr
      (Or.inr ⟨rfl, rfl⟩)))))))))

/-- C2: the history request of `Dashboard.loadCommandHistory` is the single
request `GET /commands/history` whose `admin_view` parameter is `true` exactly
when `user.role` is the string `admin` and `false` exactly when it is any other
value; `api.getCommandHistory` called without an argument sends
`admin_view = false`. -/
theorem loadCommandHistory_admin_view :
    (∀ (user : User) (history : Except JsError (List CommandEvent)) (s : Dashboard.State),
      ∃ b : Bool,
        requestsOf (Dashboard.loadCommandHistory user history s).2 =
          [{ client := .apiClient, method := .GET, path := "/commands/history", data := .none,
             params := [("admin_view", .bool b)], headers := [] }] ∧
        (b = true ↔ user.role = .str "admin") ∧
        (b = false ↔ user.role ≠ .str "admin")) ∧
    (api.getCommandHistory none).params = [("admin_view", .bool false)] := by
  refine ⟨?_, rfl⟩
  intro user history s
  refine ⟨Dashboard.isAdmin user, ?_, ?_, ?_⟩
  · cases history <;> rfl
  · simp [Dashboard.isAdmin]
  · simp [Dashboard.isAdmin]

/-- C3: when the current user is non-null and has the id of the record to
delete, `UserManager.handleDeleteUser` only shows the toast `You cannot delete
your own account`: it issues no request, asks for no confirmation, and leaves
the state (the users list included) unchanged. -/
theorem handleDeleteUser_rejects_self (u c : User) (confirmed : Bool)
    (delete : Except JsError Unit) (s : UserManager.State) (h : u.id = c.id) :
    requestsOf (UserManager.handleDeleteUser (some c) u confirmed delete s).2 = [] ∧
    (UserManager.handleDeleteUser (some c) u confirmed delete s).2 =
      [.toast { variant := some "destructive", title := "Cannot Delete",
                description := .str "You cannot delete your own account",
                className := none }] ∧
    (UserManager.handleDeleteUser (some c) u confirmed delete s).1.users = s.users ∧
    (UserManager.handleDeleteUser (some c) u confirmed delete s).1 = s := by
  simp [UserManager.handleDeleteUser, h, requestsOf, UserManager.cannotDeleteToast,
    UserManager.destructive]

/-- Witness of C3: an admin `u1` asked to delete the record with id `u1`, with
the confirmation accepted and the backend ready to succeed. -/
theorem handleDeleteUser_rejects_self_witness :
    requestsOf (UserManager.handleDeleteUser
      (some { id := "u1", name := "root", role := .str "admin", credits := .num 10 })
      { id := "u1", name := "root", role := .str "admin", credits := .num 3 } true (.ok ())
      { UserManager.init with users :=
          [{ id := "u1", name := "root", role := .str "admin", credits := .num 3 }] }).2 = [] :=
  (handleDeleteUser_rejects_self
    { id := "u1", name := "root", role := .str "admin", credits := .num 3 }
    { id := "u1", name := "root", role := .str "admin", credits := .num 10 } true (.ok ())
    { UserManager.init with users :=
        [{ id := "u1", name := "root", role := .str "admin", credits := .num 3 }] } rfl).1

/-- C4: for a non-blank pattern that the regular-expression constructor
rejects, `RuleManager.handleSaveRule` issues no request (neither `createRule`
nor `updateRule`) and leaves `rules`, `editingRule` and `isDialogOpen`
unchanged, whether a rule is being edited or created. -/
theorem handleSaveRule_invalid_pattern_no_mutation (regExpCompiles : String → Bool)
    (save : Except JsError Rule) (s : RuleManager.State)
    (hblank : isBlank s.formData.pattern = false)
    (hbad : regExpCompiles s.formData.pattern = false) :
    requestsOf (RuleManager.handleSaveRule regExpCompiles save s).2 = [] ∧
    (RuleManager.handleSaveRule regExpCompiles save s).1.rules = s.rules ∧
    (RuleManager.handleSaveRule regExpCompiles save s).1.editingRule = s.editingRule ∧
    (RuleManager.handleSaveRule regExpCompiles save s).1.isDialogOpen = s.isDialogOpen := by
  simp [RuleManager.handleSaveRule, hblank, hbad, requestsOf]

/-- Witness of C4: the unterminated group `(` typed while editing rule `r1`. -/
theorem handleSaveRule_invalid_pattern_no_mutation_witness :
    requestsOf (RuleManager.handleSaveRule RuleManager.sampleRegExpCompiles
      (.ok { id := "r1", pattern := "(", action := "AUTO_REJECT", description := "",
             is_active := true, created_at := 0, order_key := 1 })
      { rules := [{ id := "r1", pattern := "rm -rf", action := "AUTO_REJECT", description := "",
                    is_active := true, created_at := 0, order_key := 1 }],
        isDialogOpen := true,
        editingRule := some { id := "r1", pattern := "rm -rf", action := "AUTO_REJECT",
                              description := "", is_active := true, created_at := 0,
                              order_key := 1 },
        formData := { pattern := "(", action := "AUTO_REJECT", description := "",
                      is_active := true } }).2 = [] :=
  (handleSaveRule_invalid_pattern_no_mutation RuleManager.sampleRegExpCompiles
    (.ok { id := "r1", pattern := "(", action := "AUTO_REJECT", description := "",
           is_active := true, created_at := 0, order_key := 1 })
    { rules := [{ id := "r1", pattern := "rm -rf", action := "AUTO_REJECT", description := "",
                  is_active := true, created_at := 0, order_key := 1 }],
      isDialogOpen := true,
      editingRule := some { id := "r1", pattern := "rm -rf", action := "AUTO_REJECT",
                            description := "", is_active := true, created_at := 0,
                            order_key := 1 },
      formData := { pattern := "(", action := "AUTO_REJECT", description := "",
                    is_active := true } }
    (by decide) (by decide)).1

/-- C5, as stated, fails: the pattern `(` is non-blank and is rejected as an
invalid regular expression, and the only message shown, `Invalid Regex` /
`Please provide a valid regular expression pattern`, does not contain it. -/
theorem invalid_regex_message_does_not_echo :
    isBlank "(" = false ∧ RuleManager.sampleRegExpCompiles "(" = false ∧
    toastsOf (RuleManager.handleSaveRule RuleManager.sampleRegExpCompiles (.error typeError)
      { RuleManager.init with
          formData := { pattern := "(", action := "AUTO_ACCEPT", description := "",
                        is_active := true } }).2 = [RuleManager.invalidRegexToast] ∧
    ¬ RuleManager.echoes RuleManager.invalidRegexToast "(" := by
  refine ⟨by decide, by decide, by decide, ?_⟩
  rintro (h | ⟨d, hd, h⟩)
  · have hmem := h.subset (List.mem_singleton_self _)
    revert hmem
    decide
  · have hd2 : d = "Please provide a valid regular expression pattern" := by
      simpa [RuleManager.invalidRegexToast] using hd.symm
    subst hd2
    have hmem := h.subset (List.mem_singleton_self _)
    revert hmem
    decide

/-- C5, amended: for every non-blank pattern that the regular-expression
constructor rejects, `RuleManager.handleSaveRule` shows exactly one message,
the destructive toast titled `Invalid Regex` with the fixed description
`Please provide a valid regular expression pattern`. The message is the same
for every rejected pattern and is not built from the pattern: it contains the
pattern only when the pattern happens to be a piece of that fixed title or
description. -/
theorem handleSaveRule_invalid_regex_fixed_message (regExpCompiles : String → Bool)
    (save : Except JsError Rule) (s : RuleManager.State)
    (hblank : isBlank s.formData.pattern = false)
    (hbad : regExpCompiles s.formData.pattern = false) :
    (RuleManager.handleSaveRule regExpCompiles save s).2 =
      [.toast { variant := some "destructive", title := "Invalid Regex",
                description := .str "Please provide a valid regular expression pattern",
                className := none }] ∧
    (∀ (save2 : Except JsError Rule) (s2 : RuleManager.State),
      isBlank s2.formData.pattern = false → regExpCompiles s2.formData.pattern = false →
        (RuleManager.handleSaveRule regExpCompiles save2 s2).2 =
          (RuleManager.handleSaveRule regExpCompiles save s).2) ∧
    ((∃ t ∈ toastsOf (RuleManager.handleSaveRule regExpCompiles save s).2,
        RuleManager.echoes t s.formData.pattern) ↔
      (s.formData.pattern.toList <:+: "Invalid Regex".toList ∨
        s.formData.pattern.toList <:+:
          "Please provide a valid regular expression pattern".toList)) := by
  have hfixed : ∀ (save2 : Except JsError Rule) (s2 : RuleManager.State),
      isBlank s2.formData.pattern = false → regExpCompiles s2.formData.pattern = false →
      (RuleManager.handleSaveRule regExpCompiles save2 s2).2 =
        [.toast RuleManager.invalidRegexToast] := by
    intro save2 s2 h1 h2
    simp [RuleManager.handleSaveRule, h1, h2]
  refine ⟨hfixed save s hblank hbad, ?_, ?_⟩
  · intro save2 s2 h1 h2
    rw [hfixed save2 s2 h1 h2, hfixed save s hblank hbad]
  · rw [hfixed save s hblank hbad]
    constructor
    · rintro ⟨t, ht, he⟩
      have ht2 : t = RuleManager.invalidRegexToast := by
        simpa [toastsOf] using ht
      subst ht2
      rcases he with h | ⟨d, hd, h⟩
      · exact Or.inl h
      · have hd2 : d = "Please provide a valid regular expression pattern" := by
          simpa [RuleManager.invalidRegexToast] using hd.symm
        subst hd2
        exact Or.inr h
    · intro h
      refine ⟨RuleManager.invalidRegexToast, by simp [toastsOf], ?_⟩
      rcases h with h | h
      · exact Or.inl h
      · exact Or.inr ⟨_, rfl, h⟩

/-- Witness of the amended C5: the pattern `(` in the create dialog. -/
theorem handleSaveRule_invalid_regex_fixed_message_witness :
    (RuleManager.handleSaveRule RuleManager.sampleRegExpCompiles (.error typeError)
      { RuleManager.init with
          formData := { pattern := "(", action := "AUTO_ACCEPT", description := "",
                        is_active := true } }).2 =
      [.toast { variant := some "destructive", title := "Invalid Regex",
                description := .str "Please provide a valid regular expression pattern",
                className := none }] :=
  (handleSaveRule_invalid_regex_fixed_message RuleManager.sampleRegExpCompiles
    (.error typeError)
    { RuleManager.init with
        formData := { pattern := "(", action := "AUTO_ACCEPT", description := "",
                      is_active := true } }
    (by decide) (by decide)).1

/-- C6: whatever the credit input, every `api.updateUserCredits(id, c)` request
issued by `UserManager.handleUpdateCredits` has `c ≥ 0`; and when the parsed
input is `NaN` or negative the handler issues no request and leaves `users`,
`selectedUser`, `creditUpdate` and `isEditDialogOpen` (the whole state)
unchanged. -/
theorem handleUpdateCredits_nonnegative (update : Except JsError Unit)
    (reload : Except JsError (List User)) (s : UserManager.State) :
    (∀ (id : String) (c : Int),
      Effect.request (api.updateUserCredits id c) ∈
        (UserManager.handleUpdateCredits update reload s).2 → 0 ≤ c) ∧
    ((∀ n : Int, parseInt s.creditUpdate = some n → n < 0) →
      requestsOf (UserManager.handleUpdateCredits update reload s).2 = [] ∧
      (UserManager.handleUpdateCredits update reload s).1.users = s.users ∧
      (UserManager.handleUpdateCredits update reload s).1.selectedUser = s.selectedUser ∧
      (UserManager.handleUpdateCredits update reload s).1.creditUpdate = s.creditUpdate ∧
      (UserManager.handleUpdateCredits update reload s).1.isEditDialogOpen =
        s.isEditDialogOpen ∧
      (UserManager.handleUpdateCredits update reload s).1 = s) := by
  constructor
  · intro id c hmem
    unfold UserManager.handleUpdateCredits at hmem
    cases hp : parseInt s.creditUpdate with
    | none => simp [hp] at hmem
    | some n =>
      by_cases hn : n < 0
      · simp [hp, hn] at hmem
      · cases hsel : s.selectedUser with
        | none => simp [hp, hn, hsel] at hmem
        | some sel =>
          have hc : ∀ cs : List Effect,
              Effect.request (api.updateUserCredits id c) ∈ cs →
              (∀ e ∈ cs, e = Effect.request (api.updateUserCredits sel.id n) ∨
                e = Effect.request api.getAllUsers ∨ ∃ t, e = Effect.toast t ∨
                ∃ l, e = Effect.consoleError l) → 0 ≤ c := by
            intro cs hin hall
            rcases hall _ hin with h | h | ⟨t, h | ⟨l, h⟩⟩
            · simp only [Effect.request.injEq, api.updateUserCredits, Request.mk.injEq,
                Body.credits.injEq] at h
              omega
            · simp [api.updateUserCredits, api.getAllUsers] at h
            · cases h
            · cases h
          apply hc _ hmem
          intro e he
          cases update with
          | ok u =>
            cases reload with
            | ok us =>
              simp [hp, hn, hsel, UserManager.loadUsers] at he
              rcases he with h | h | h
              · exact Or.inl h
              · exact Or.inr (Or.inr ⟨_, Or.inl h⟩)
              · exact Or.inr (Or.inl h)
            | error er =>
              simp [hp, hn, hsel, UserManager.loadUsers] at he
              rcases he with h | h | h | h
              · exact Or.inl h
              · exact Or.inr (Or.inr ⟨_, Or.inl h⟩)
              · exact Or.inr (Or.inl h)
              · exact Or.inr (Or.inr ⟨UserManager.invalidInputToast, Or.inr ⟨_, h⟩⟩)
          | error er =>
            simp [hp, hn, hsel] at he
            rcases he with h | h
            · exact Or.inl h
            · exact Or.inr (Or.inr ⟨_, Or.inl h⟩)
  · intro hbad
    unfold UserManager.handleUpdateCredits
    cases hp : parseInt s.creditUpdate with
    | none => simp [requestsOf]
    | some n => simp [hbad n hp, requestsOf]

/-- Witness of C6: with user `u2` selected, the input `5` produces the request
`updateUserCredits("u2", 5)`, and the input `-3` is rejected without a request. -/
theorem handleUpdateCredits_nonnegative_witness :
    (Effect.request (api.updateUserCredits "u2" 5) ∈
      (UserManager.handleUpdateCredits (.ok ()) (.ok [])
        { UserManager.init with
            selectedUser := some { id := "u2", name := "ann", role := .str "member",
                                   credits := .num 1 },
            isEditDialogOpen := true, creditUpdate := "5" }).2 ∧ (0 : Int) ≤ 5) ∧
    requestsOf (UserManager.handleUpdateCredits (.ok ()) (.ok [])
      { UserManager.init with
          selectedUser := some { id := "u2", name := "ann", role := .str "member",
                                 credits := .num 1 },
          isEditDialogOpen := true, creditUpdate := "-3" }).2 = [] :=
  ⟨⟨by decide,
    (handleUpdateCredits_nonnegative (.ok ()) (.ok [])
      { UserManager.init with
          selectedUser := some { id := "u2", name := "ann", role := .str "member",
                                 credits := .num 1 },
          isEditDialogOpen := true, creditUpdate := "5" }).1 "u2" 5 (by decide)⟩,
   ((handleUpdateCredits_nonnegative (.ok ()) (.ok [])
      { UserManager.init with
          selectedUser := some { id := "u2", name := "ann", role := .str "member",
                                 credits := .num 1 },
          isEditDialogOpen := true, creditUpdate := "-3" }).2
      (by
        intro n hn
        have hp : parseInt "-3" = some (-3) := by decide
        have hn2 : parseInt "-3" = some n := hn
        rw [hp] at hn2
        cases hn2
        decide)).1⟩

/-- C7, as stated, fails: with 10 credits held by `Dashboard`, a `BLOCKED`
result reporting `remaining_credits = 7` leaves the credits cell at 7, and so
does a `NO_MATCH` result reporting 7. -/
theorem blocked_result_overwrites_credits :
    isBlank "rm -rf /" = false ∧ isBlank "echo hello" = false ∧
    (Dashboard.handleCommandSubmit
      { id := "u2", name := "ann", role := .str "member", credits := .num 10 } "rm -rf /"
      (.ok (some { status := .str "BLOCKED", remaining_credits := .num 7,
                   message := .undefined, error := .undefined }))
      (.ok [])
      { credits := .num 10, commandHistory := [], isAnalyzing := false }).1.credits
        = .num 7 ∧
    (Dashboard.handleCommandSubmit
      { id := "u2", name := "ann", role := .str "member", credits := .num 10 } "echo hello"
      (.ok (some { status := .str "NO_MATCH", remaining_credits := .num 7,
                   message := .undefined, error := .undefined }))
      (.ok [])
      { credits := .num 10, commandHistory := [], isAnalyzing := false }).1.credits
        = .num 7 := by
  refine ⟨by decide, by decide, by decide, by decide⟩

/-- C7, amended: for a non-blank command and an execute result whose status is
`BLOCKED` or `NO_MATCH` and whose `remaining_credits` is a number `n`, the
credits cell after `handleCommandSubmit` holds `n`, the balance reported by the
server; it equals the value before the call exactly when `n` is that value. -/
theorem handleCommandSubmit_credits_follow_result (user : User) (commandText : String)
    (result : ExecResult) (n : Int) (history : Except JsError (List CommandEvent))
    (s : Dashboard.State) (hblank : isBlank commandText = false)
    (hstatus : result.status = .str "BLOCKED" ∨ result.status = .str "NO_MATCH")
    (hnum : result.remaining_credits = .num n) :
    (Dashboard.handleCommandSubmit user commandText (.ok (some result)) history s).1.credits
        = .num n ∧
    ((Dashboard.handleCommandSubmit user commandText (.ok (some result)) history s).1.credits
        = s.credits ↔ s.credits = .num n) := by
  have hne : result.status ≠ .str "INSUFFICIENT_CREDITS" := by
    rcases hstatus with h | h <;> rw [h] <;> decide
  have hcred :
      (Dashboard.handleCommandSubmit user commandText (.ok (some result)) history s).1.credits
        = .num n := by
    cases history <;>
      simp [Dashboard.handleCommandSubmit, hblank, hne, Dashboard.loadCommandHistory, hnum]
  exact ⟨hcred, by rw [hcred]; exact eq_comm⟩

/-- Witness of the amended C7: a `BLOCKED` result reporting `10` credits. -/
theorem handleCommandSubmit_credits_follow_result_witness :
    (Dashboard.handleCommandSubmit
      { id := "u2", name := "ann", role := .str "member", credits := .num 10 } "rm -rf /"
      (.ok (some { status := .str "BLOCKED", remaining_credits := .num 10,
                   message := .undefined, error := .undefined }))
      (.ok [])
      { credits := .num 10, commandHistory := [], isAnalyzing := false }).1.credits
        = .num 10 :=
  (handleCommandSubmit_credits_follow_result
    { id := "u2", name := "ann", role := .str "member", credits := .num 10 } "rm -rf /"
    { status := .str "BLOCKED", remaining_credits := .num 10,
      message := .undefined, error := .undefined } 10
    (.ok [])
    { credits := .num 10, commandHistory := [], isAnalyzing := false }
    (by decide) (Or.inl rfl) rfl).1

/-- C8: when `api.executeCommand` (called for a non-blank command) returns a
result with status `INSUFFICIENT_CREDITS`, `Dashboard.handleCommandSubmit`
leaves `credits` and `commandHistory` unchanged, issues the execute request
and no history request, and returns the object `{ error: result.message }`. -/
theorem handleCommandSubmit_insufficient_credits (user : User) (commandText : String)
    (result : ExecResult) (history : Except JsError (List CommandEvent))
    (s : Dashboard.State) (hblank : isBlank commandText = false)
    (hstatus : result.status = .str "INSUFFICIENT_CREDITS") :
    (Dashboard.handleCommandSubmit user commandText (.ok (some result)) history s).1.credits
        = s.credits ∧
    (Dashboard.handleCommandSubmit user commandText (.ok (some result)) history s).1.commandHistory
        = s.commandHistory ∧
    (Dashboard.handleCommandSubmit user commandText (.ok (some result)) history s).2.1
        = [.request (api.executeCommand commandText)] ∧
    (∀ a : Option Bool, api.getCommandHistory a ∉
      requestsOf (Dashboard.handleCommandSubmit user commandText (.ok (some result))
        history s).2.1) ∧
    (Dashboard.handleCommandSubmit user commandText (.ok (some result)) history s).2.2
        = .errorObj result.message := by
  simp [Dashboard.handleCommandSubmit, hblank, hstatus, requestsOf, api.getCommandHistory,
    api.executeCommand]

/-- Witness of C8: an `INSUFFICIENT_CREDITS` result with a message. -/
theorem handleCommandSubmit_insufficient_credits_witness :
    (Dashboard.handleCommandSubmit
      { id := "u2", name := "ann", role := .str "member", credits := .num 0 } "ls"
      (.ok (some { status := .str "INSUFFICIENT_CREDITS", remaining_credits := .undefined,
                   message := .str "Insufficient credits", error := .undefined }))
      (.ok [])
      { credits := .num 0, commandHistory := [], isAnalyzing := false }).2.2
        = .errorObj (.str "Insufficient credits") :=
  (handleCommandSubmit_insufficient_credits
    { id := "u2", name := "ann", role := .str "member", credits := .num 0 } "ls"
    { status := .str "INSUFFICIENT_CREDITS", remaining_credits := .undefined,
      message := .str "Insufficient credits", error := .undefined }
    (.ok [])
    { credits := .num 0, commandHistory := [], isAnalyzing := false }
    (by decide) rfl).2.2.2.2

/-- C9 at the failing input: for an `INSUFFICIENT_CREDITS` result without a
message, and for one whose message is the empty string, the composition of
`TerminalInput.handleSubmit` with `Dashboard.handleCommandSubmit` shows no
toast at all, while the same result with a non-empty message is shown as
`Command Failed`. -/
theorem insufficient_credits_without_message_shows_no_toast :
    toastsOf (TerminalInput.handleSubmit
      (fun c p => Dashboard.handleCommandSubmit
        { id := "u2", name := "ann", role := .str "member", credits := .num 0 } c
        (.ok (some { status := .str "INSUFFICIENT_CREDITS", remaining_credits := .undefined,
                     message := .undefined, error := .undefined }))
        (.ok []) p)
      false { command := "ls" }
      { credits := .num 0, commandHistory := [], isAnalyzing := false }).2.2 = [] ∧
    toastsOf (TerminalInput.handleSubmit
      (fun c p => Dashboard.handleCommandSubmit
        { id := "u2", name := "ann", role := .str "member", credits := .num 0 } c
        (.ok (some { status := .str "INSUFFICIENT_CREDITS", remaining_credits := .undefined,
                     message := .str "", error := .undefined }))
        (.ok []) p)
      false { command := "ls" }
      { credits := .num 0, commandHistory := [], isAnalyzing := false }).2.2 = [] ∧
    toastsOf (TerminalInput.handleSubmit
      (fun c p => Dashboard.handleCommandSubmit
        { id := "u2", name := "ann", role := .str "member", credits := .num 0 } c
        (.ok (some { status := .str "INSUFFICIENT_CREDITS", remaining_credits := .undefined,
                     message := .str "Insufficient credits", error := .undefined }))
        (.ok []) p)
      false { command := "ls" }
      { credits := .num 0, commandHistory := [], isAnalyzing := false }).2.2 =
      [{ variant := some "destructive", title := "Command Failed",
         description := .str "Insufficient credits", className := none }] := by
  refine ⟨by decide, by decide, by decide⟩

/-- C10 at the failing input: after a user is created with key `sk-live-1`
and the key modal is dismissed through `onOpenChange(false)` (Escape, outside
click or the close icon), the modal is closed while `newUserApiKey` still
holds the key; the close button, on the same state, clears it. -/
theorem dismissed_key_modal_keeps_key :
    ((UserManager.keyRun
      [.typeName "bob", .createUser (.ok (some { api_key := .str "sk-live-1" })) (.ok []),
       .onOpenChange false]).isKeyModalOpen = false ∧
     (UserManager.keyRun
      [.typeName "bob", .createUser (.ok (some { api_key := .str "sk-live-1" })) (.ok []),
       .onOpenChange false]).newUserApiKey = .str "sk-live-1") ∧
    ((UserManager.keyRun
      [.typeName "bob", .createUser (.ok (some { api_key := .str "sk-live-1" })) (.ok []),
       .closeButton]).isKeyModalOpen = false ∧
     (UserManager.keyRun
      [.typeName "bob", .createUser (.ok (some { api_key := .str "sk-live-1" })) (.ok []),
       .closeButton]).newUserApiKey = .str "") := by
  refine ⟨⟨by decide, by decide⟩, by decide, by decide⟩

/-! ### Supporting facts on the two defects -/

/-- For a non-blank command submitted while no analysis runs and an
`INSUFFICIENT_CREDITS` result, the composition shows the `Command Failed` toast
carrying the message when the message is truthy, and no toast otherwise. -/
theorem insufficient_credits_toasts (user : User) (command : String) (result : ExecResult)
    (history : Except JsError (List CommandEvent)) (p : Dashboard.State)
    (hblank : isBlank command = false)
    (hstatus : result.status = .str "INSUFFICIENT_CREDITS") :
    toastsOf (TerminalInput.handleSubmit
      (fun c q => Dashboard.handleCommandSubmit user c (.ok (some result)) history q)
      false { command := command } p).2.2 =
    if result.message.truthy then
      [{ variant := some "destructive", title := "Command Failed",
         description := result.message, className := none }]
    else [] := by
  by_cases hm : result.message.truthy = true
  · simp [TerminalInput.handleSubmit, Dashboard.handleCommandSubmit, hblank, hstatus,
      SubmitResult.getError, SubmitResult.getStatus, TerminalInput.resultToast, hm, toastsOf]
  · simp [TerminalInput.handleSubmit, Dashboard.handleCommandSubmit, hblank, hstatus,
      SubmitResult.getError, SubmitResult.getStatus, TerminalInput.resultToast, hm, toastsOf]

/-- One event other than `onOpenChange(false)` keeps the property that a closed
key modal goes with an empty `newUserApiKey`. -/
theorem keyStep_preserves_cleared (s : UserManager.State) (e : UserManager.KeyEvent)
    (he : e ≠ .onOpenChange false)
    (hs : s.isKeyModalOpen = false → s.newUserApiKey = .str "") :
    (UserManager.keyStep s e).isKeyModalOpen = false →
      (UserManager.keyStep s e).newUserApiKey = .str "" := by
  cases e with
  | typeName v => simpa [UserManager.keyStep, UserManager.setNewUserName] using hs
  | createUser create reload =>
    by_cases hb : isBlank s.newUser.name = true
    · simpa [UserManager.keyStep, UserManager.handleCreateUser, hb] using hs
    · rcases create with err | (_ | created)
      · simpa [UserManager.keyStep, UserManager.handleCreateUser, hb] using hs
      · simpa [UserManager.keyStep, UserManager.handleCreateUser, hb] using hs
      · cases reload <;>
          simp [UserManager.keyStep, UserManager.handleCreateUser, hb, UserManager.loadUsers]
  | onOpenChange b =>
    cases b with
    | false => exact absurd rfl he
    | true => simp [UserManager.keyStep, UserManager.keyModalOnOpenChange]
  | closeButton => simp [UserManager.keyStep, UserManager.keyModalCloseButton]

/-- In every state reached from the initial one without an `onOpenChange(false)`
event, a closed key modal goes with an empty `newUserApiKey`: only the
dismissal path breaks the property. -/
theorem keyRun_cleared_without_dismissal (events : List UserManager.KeyEvent)
    (h : ∀ e ∈ events, e ≠ UserManager.KeyEvent.onOpenChange false) :
    (UserManager.keyRun events).isKeyModalOpen = false →
      (UserManager.keyRun events).newUserApiKey = .str "" := by
  unfold UserManager.keyRun
  induction events using List.reverseRecOn with
  | nil => intro _; rfl
  | append_singleton es e ih =>
    rw [List.foldl_append]
    simp only [List.foldl_cons, List.foldl_nil]
    apply keyStep_preserves_cleared
    · exact h e (by simp)
    · exact ih (fun x hx => h x (by simp [hx]))

/-! ### Claims C11 to C20 -/

/-- The requests of a concatenation of effect lists. -/
theorem requestsOf_append (a b : List Effect) :
    requestsOf (a ++ b) = requestsOf a ++ requestsOf b := by
  induction a with
  | nil => rfl
  | cons e es ih => cases e <;> simp [requestsOf, ih]

/-- The toasts of a concatenation of effect lists. -/
theorem toastsOf_append (a b : List Effect) :
    toastsOf (a ++ b) = toastsOf a ++ toastsOf b := by
  induction a with
  | nil => rfl
  | cons e es ih => cases e <;> simp [toastsOf, ih]

/-- The requests issued by `Dashboard.handleCommandSubmit` for a non-blank
command: the execute request first, then at most the history reload. -/
theorem handleCommandSubmit_requests (user : User) (c : String)
    (exec : Except JsError (Option ExecResult))
    (history : Except JsError (List CommandEvent)) (p : Dashboard.State)
    (hblank : isBlank c = false) :
    requestsOf (Dashboard.handleCommandSubmit user c exec history p).2.1 =
        [api.executeCommand c] ∨
    requestsOf (Dashboard.handleCommandSubmit user c exec history p).2.1 =
        [api.executeCommand c, api.getCommandHistory (some (Dashboard.isAdmin user))] := by
  rcases exec with err | (_ | result)
  · left
    simp [Dashboard.handleCommandSubmit, hblank, requestsOf]
  · left
    simp [Dashboard.handleCommandSubmit, hblank, requestsOf]
  · by_cases hs : result.status = .str "INSUFFICIENT_CREDITS"
    · left
      simp [Dashboard.handleCommandSubmit, hblank, hs, requestsOf]
    · right
      cases history <;>
        simp [Dashboard.handleCommandSubmit, hblank, hs, requestsOf,
          Dashboard.loadCommandHistory]

/-- The effects of `TerminalInput.handleSubmit` past its guard are those of
`onSubmit` followed by effects that are not requests. -/
theorem handleSubmit_requests {σ : Type}
    (onSubmit : String → σ → σ × List Effect × SubmitResult) (s : TerminalInput.State)
    (p : σ) (hblank : isBlank s.command = false) :
    requestsOf (TerminalInput.handleSubmit onSubmit false s p).2.2 =
      requestsOf (onSubmit s.command p).2.1 := by
  unfold TerminalInput.handleSubmit
  simp only [hblank, Bool.or_self, Bool.false_eq_true, if_false]
  cases hE : (onSubmit s.command p).2.2.getError with
  | none => simp [requestsOf_append, requestsOf]
  | some e =>
    simp only
    cases hT : TerminalInput.resultToast s.command e (onSubmit s.command p).2.2.getStatus with
    | none => simp
    | some t => simp [requestsOf_append, requestsOf]

/-- C11: a non-blank command `c` submitted while no analysis is in flight makes
`TerminalInput.handleSubmit` (through `Dashboard.handleCommandSubmit` and
`api.executeCommand`) send exactly one `POST /commands/execute` request, the
first request sent, whose body is `{command_text: c}` with `c` unchanged (the
only other request possible is the history reload); a blank `c` sends no
request at all. -/
theorem handleSubmit_sends_command_verbatim (user : User) (c : String)
    (exec : Except JsError (Option ExecResult))
    (history : Except JsError (List CommandEvent)) (p : Dashboard.State) :
    (isBlank c = false →
      (requestsOf (TerminalInput.handleSubmit
          (fun t q => Dashboard.handleCommandSubmit user t exec history q)
          false { command := c } p).2.2).filter
          (fun r => decide (r.path = "/commands/execute")) =
        [{ client := .apiClient, method := .POST, path := "/commands/execute",
           data := .commandText c, params := [], headers := [] }] ∧
      (requestsOf (TerminalInput.handleSubmit
          (fun t q => Dashboard.handleCommandSubmit user t exec history q)
          false { command := c } p).2.2).head? = some (api.executeCommand c) ∧
      (api.executeCommand c).data = .commandText c) ∧
    (isBlank c = true →
      ∀ isAnalyzing : Bool,
        requestsOf (TerminalInput.handleSubmit
          (fun t q => Dashboard.handleCommandSubmit user t exec history q)
          isAnalyzing { command := c } p).2.2 = []) := by
  constructor
  · intro hblank
    have hreq := handleSubmit_requests
      (fun t q => Dashboard.handleCommandSubmit user t exec history q)
      { command := c } p hblank
    simp only at hreq
    rw [hreq]
    rcases handleCommandSubmit_requests user c exec history p hblank with h | h
    · rw [h]
      simp [api.executeCommand]
    · rw [h]
      simp [api.executeCommand, api.getCommandHistory]
  · intro hblank isAnalyzing
    simp [TerminalInput.handleSubmit, hblank, requestsOf]

/-- Witness of C11: the command ` ls -la ` (with its surrounding blanks) is sent
as typed, and the blank command of three spaces sends nothing. -/
theorem handleSubmit_sends_command_verbatim_witness :
    (requestsOf (TerminalInput.handleSubmit
        (fun t q => Dashboard.handleCommandSubmit
          { id := "u2", name := "ann", role := .str "member", credits := .num 3 } t
          (.ok (some { status := .str "EXECUTED", remaining_credits := .num 2,
                       message := .undefined, error := .undefined }))
          (.ok []) q)
        false { command := " ls -la " }
        { credits := .num 3, commandHistory := [], isAnalyzing := false }).2.2).head? =
      some (api.executeCommand " ls -la ") ∧
    requestsOf (TerminalInput.handleSubmit
        (fun t q => Dashboard.handleCommandSubmit
          { id := "u2", name := "ann", role := .str "member", credits := .num 3 } t
          (.ok (some { status := .str "EXECUTED", remaining_credits := .num 2,
                       message := .undefined, error := .undefined }))
          (.ok []) q)
        false { command := "   " }
        { credits := .num 3, commandHistory := [], isAnalyzing := false }).2.2 = [] :=
  ⟨((handleSubmit_sends_command_verbatim
      { id := "u2", name := "ann", role := .str "member", credits := .num 3 } " ls -la "
      (.ok (some { status := .str "EXECUTED", remaining_credits := .num 2,
                   message := .undefined, error := .undefined }))
      (.ok []) { credits := .num 3, commandHistory := [], isAnalyzing := false }).1
      (by decide)).2.1,
   (handleSubmit_sends_command_verbatim
      { id := "u2", name := "ann", role := .str "member", credits := .num 3 } "   "
      (.ok (some { status := .str "EXECUTED", remaining_credits := .num 2,
                   message := .undefined, error := .undefined }))
      (.ok []) { credits := .num 3, commandHistory := [], isAnalyzing := false }).2
      (by decide) false⟩

/-- Boolean equality of two different strings is `false`. -/
theorem beq_false_of_ne {a b : String} (h : a ≠ b) : (a == b) = false := by
  simpa using h

/-- Overwriting an existing header makes its lookup return the new value. -/
theorem lookup_map_same (headers : List (String × String)) (name value : String)
    (hany : headers.any (fun h => h.1 == name) = true) :
    (headers.map (fun h => if h.1 == name then (name, value) else h)).lookup name
      = some value := by
  induction headers with
  | nil => simp at hany
  | cons x xs ih =>
    rcases x with ⟨k, v⟩
    by_cases hk : k = name
    · simp [List.lookup_cons, hk]
    · have hb : (name == k) = false := beq_false_of_ne (fun h => hk h.symm)
      have hany2 : xs.any (fun h => h.1 == name) = true := by
        simpa [hk] using hany
      have h2 := ih hany2
      simp only [List.map_cons, beq_iff_eq, hk, if_false, List.lookup_cons, hb]
      simpa using h2

/-- Appending a header that was absent makes its lookup return the new value. -/
theorem lookup_append_same (headers : List (String × String)) (name value : String)
    (hany : ¬ headers.any (fun h => h.1 == name) = true) :
    (headers ++ [(name, value)]).lookup name = some value := by
  induction headers with
  | nil => simp [List.lookup_cons]
  | cons x xs ih =>
    rcases x with ⟨k, v⟩
    have hk : ¬ k = name := by
      intro h
      apply hany
      simp [h]
    have hb : (name == k) = false := beq_false_of_ne (fun h => hk h.symm)
    have hany2 : ¬ xs.any (fun h => h.1 == name) = true := by
      intro h
      apply hany
      simp only [List.any_cons, h, Bool.or_true]
    simp only [List.cons_append, List.lookup_cons, hb]
    exact ih hany2

/-- Overwriting a header does not change the lookup of another name. -/
theorem lookup_map_other (headers : List (String × String)) (name value h : String)
    (hne : h ≠ name) :
    (headers.map (fun x => if x.1 == name then (name, value) else x)).lookup h
      = headers.lookup h := by
  have hb : (h == name) = false := beq_false_of_ne hne
  induction headers with
  | nil => rfl
  | cons x xs ih =>
    rcases x with ⟨k, v⟩
    by_cases hk : k = name
    · subst hk
      simp only [List.map_cons, beq_self_eq_true, if_true, List.lookup_cons, hb]
      exact ih
    · simp only [List.map_cons, beq_iff_eq, hk, if_false, List.lookup_cons]
      cases (h == k)
      · simpa using ih
      · rfl

/-- Appending a header does not change the lookup of another name. -/
theorem lookup_append_other (headers : List (String × String)) (name value h : String)
    (hne : h ≠ name) :
    (headers ++ [(name, value)]).lookup h = headers.lookup h := by
  have hb : (h == name) = false := beq_false_of_ne hne
  induction headers with
  | nil => simp [List.lookup_cons, hb, List.lookup]
  | cons x xs ih =>
    rcases x with ⟨k, v⟩
    simp only [List.cons_append, List.lookup_cons]
    cases (h == k)
    · exact ih
    · rfl

/-- After `headers[name] = value` the header `name` reads `value`. -/
theorem lookup_setHeader_same (headers : List (String × String)) (name value : String) :
    (setHeader headers name value).lookup name = some value := by
  unfold setHeader
  by_cases hany : headers.any (fun h => h.1 == name) = true
  · rw [if_pos hany]
    exact lookup_map_same headers name value hany
  · rw [if_neg hany]
    exact lookup_append_same headers name value hany

/-- After `headers[name] = value` every other header reads as before. -/
theorem lookup_setHeader_other (headers : List (String × String)) (name value h : String)
    (hne : h ≠ name) :
    (setHeader headers name value).lookup h = headers.lookup h := by
  unfold setHeader
  by_cases hany : headers.any (fun h => h.1 == name) = true
  · rw [if_pos hany]
    exact lookup_map_other headers name value h hne
  · rw [if_neg hany]
    exact lookup_append_other headers name value h hne

/-- C12: `api.verifyApiKey(k)` is sent as built, with `X-API-Key = k`, whatever
the storage holds; the request interceptor of `apiClient` sets `X-API-Key` to
the value stored under `unbound_key` when that value is non-empty, leaving every
other header and every other field of the config unchanged (so every request
made through `apiClient` leaves with that header), and it returns the config
unchanged when no key or the empty key is stored. -/
theorem credential_header (storage : Storage) :
    (∀ k : String, sentConfig storage (api.verifyApiKey k) = api.verifyApiKey k ∧
      (sentConfig storage (api.verifyApiKey k)).headers.lookup "X-API-Key" = some k) ∧
    (∀ (config : Request) (apiKey : String),
      storage.getItem "unbound_key" = some apiKey → apiKey ≠ "" →
        (requestInterceptor storage config).headers.lookup "X-API-Key" = some apiKey ∧
        (∀ h : String, h ≠ "X-API-Key" →
          (requestInterceptor storage config).headers.lookup h = config.headers.lookup h) ∧
        (requestInterceptor storage config).client = config.client ∧
        (requestInterceptor storage config).method = config.method ∧
        (requestInterceptor storage config).path = config.path ∧
        (requestInterceptor storage config).data = config.data ∧
        (requestInterceptor storage config).params = config.params) ∧
    (∀ (r : Request) (apiKey : String), r.client = .apiClient →
      storage.getItem "unbound_key" = some apiKey → apiKey ≠ "" →
        (sentConfig storage r).headers.lookup "X-API-Key" = some apiKey) ∧
    (∀ config : Request,
      storage.getItem "unbound_key" = none ∨ storage.getItem "unbound_key" = some "" →
        requestInterceptor storage config = config) := by
  refine ⟨?_, ?_, ?_, ?_⟩
  · intro k
    exact ⟨rfl, by simp [sentConfig, api.verifyApiKey, List.lookup]⟩
  · intro config apiKey hget hne
    have hb : (apiKey != "") = true := by simpa using hne
    have hreq : requestInterceptor storage config =
        { config with headers := setHeader config.headers "X-API-Key" apiKey } := by
      simp only [requestInterceptor, hget, hb, if_true]
    rw [hreq]
    exact ⟨lookup_setHeader_same _ _ _,
      fun h hh => lookup_setHeader_other _ _ _ h hh, rfl, rfl, rfl, rfl, rfl⟩
  · intro r apiKey hclient hget hne
    have hb : (apiKey != "") = true := by simpa using hne
    simp only [sentConfig, hclient, requestInterceptor, hget, hb, if_true]
    exact lookup_setHeader_same _ _ _
  · intro config hkey
    rcases hkey with h | h <;> simp [requestInterceptor, h]

/-- Witness of C12: with `sk-1` stored, `GET /users` leaves with
`X-API-Key = sk-1`; with an empty storage the config is returned as it came. -/
theorem credential_header_witness :
    (requestInterceptor [("unbound_key", "sk-1")] api.getAllUsers).headers.lookup "X-API-Key"
      = some "sk-1" ∧
    (sentConfig [("unbound_key", "sk-1")] api.getAllUsers).headers.lookup "X-API-Key"
      = some "sk-1" ∧
    requestInterceptor [] api.getAllUsers = api.getAllUsers :=
  ⟨((credential_header [("unbound_key", "sk-1")]).2.1 api.getAllUsers "sk-1"
      (by decide) (by decide)).1,
   (credential_header [("unbound_key", "sk-1")]).2.2.1 api.getAllUsers "sk-1"
      rfl (by decide) (by decide),
   (credential_header []).2.2.2 api.getAllUsers (Or.inl rfl)⟩

/-- Reading a key just removed from the storage gives `null`. -/
theorem getItem_removeItem_same (st : Storage) (key : String) :
    (st.removeItem key).getItem key = none := by
  unfold Storage.getItem Storage.removeItem
  induction st with
  | nil => rfl
  | cons x xs ih =>
    rcases x with ⟨k, v⟩
    by_cases hk : k = key
    · simpa [List.filter_cons, hk] using ih
    · have hb : (key == k) = false := beq_false_of_ne (fun h => hk h.symm)
      simp only [List.filter_cons, bne_iff_ne, ne_eq, hk, not_false_eq_true, decide_True,
        if_true, List.lookup_cons, hb]
      simpa using ih

/-- Removing a key does not change what another key reads. -/
theorem getItem_removeItem_other (st : Storage) (key other : String) (hne : other ≠ key) :
    (st.removeItem key).getItem other = st.getItem other := by
  have hb : (other == key) = false := beq_false_of_ne hne
  unfold Storage.getItem Storage.removeItem
  induction st with
  | nil => rfl
  | cons x xs ih =>
    rcases x with ⟨k, v⟩
    by_cases hk : k = key
    · subst hk
      simp only [List.filter_cons, bne_self_eq_false, Bool.false_eq_true, if_false,
        List.lookup_cons, hb]
      simpa using ih
    · simp only [List.filter_cons, bne_iff_ne, ne_eq, hk, not_false_eq_true, decide_True,
        if_true, List.lookup_cons]
      cases (other == k)
      · simpa using ih
      · rfl

/-- C13: the error handler of the `apiClient` response interceptor rejects with
the error it received; it calls `removeItem` for `unbound_key` and
`unbound_user` (after which both read `null` and every other key reads as
before) exactly when the status of `error.response` is 401, and for every
other status and for an error without a response it removes nothing and
leaves the storage as it was. -/
theorem responseErrorInterceptor_clears_on_401 (storage : Storage) (error : JsError) :
    (responseErrorInterceptor storage error).rejected = error ∧
    ((responseErrorInterceptor storage error).removed = ["unbound_key", "unbound_user"] ↔
      error.response.map (fun r => r.status) = some 401) ∧
    (error.response.map (fun r => r.status) = some 401 →
      (responseErrorInterceptor storage error).storage =
          (storage.removeItem "unbound_key").removeItem "unbound_user" ∧
      (responseErrorInterceptor storage error).storage.getItem "unbound_key" = none ∧
      (responseErrorInterceptor storage error).storage.getItem "unbound_user" = none ∧
      ∀ other : String, other ≠ "unbound_key" → other ≠ "unbound_user" →
        (responseErrorInterceptor storage error).storage.getItem other
          = storage.getItem other) ∧
    (error.response.map (fun r => r.status) ≠ some 401 →
      (responseErrorInterceptor storage error).storage = storage ∧
      (responseErrorInterceptor storage error).removed = []) := by
  by_cases h : error.response.map (fun r => r.status) = some 401
  · refine ⟨by simp [responseErrorInterceptor, h], by simp [responseErrorInterceptor, h],
      fun _ => ?_, fun hn => absurd h hn⟩
    have hst : (responseErrorInterceptor storage error).storage =
        (storage.removeItem "unbound_key").removeItem "unbound_user" := by
      simp only [responseErrorInterceptor, h, if_true]
    rw [hst]
    refine ⟨rfl, ?_, getItem_removeItem_same _ _, ?_⟩
    · rw [getItem_removeItem_other _ _ _ (by decide)]
      exact getItem_removeItem_same _ _
    · intro other h1 h2
      rw [getItem_removeItem_other _ _ _ h2, getItem_removeItem_other _ _ _ h1]
  · refine ⟨by simp [responseErrorInterceptor, h], by simp [responseErrorInterceptor, h],
      fun hp => absurd hp h, fun _ => by simp [responseErrorInterceptor, h]⟩

/-- Witness of C13: a 401 clears the two entries and keeps the third; a 403
leaves the storage as it was. -/
theorem responseErrorInterceptor_clears_on_401_witness :
    (responseErrorInterceptor
      [("unbound_key", "sk-1"), ("unbound_user", "ann"), ("theme", "dark")]
      { response := some { status := 401, detail := .undefined } }).storage.getItem
        "unbound_key" = none ∧
    (responseErrorInterceptor
      [("unbound_key", "sk-1"), ("unbound_user", "ann"), ("theme", "dark")]
      { response := some { status := 403, detail := .undefined } }).storage
      = [("unbound_key", "sk-1"), ("unbound_user", "ann"), ("theme", "dark")] :=
  ⟨((responseErrorInterceptor_clears_on_401
      [("unbound_key", "sk-1"), ("unbound_user", "ann"), ("theme", "dark")]
      { response := some { status := 401, detail := .undefined } }).2.2.1 rfl).2.1,
   ((responseErrorInterceptor_clears_on_401
      [("unbound_key", "sk-1"), ("unbound_user", "ann"), ("theme", "dark")]
      { response := some { status := 403, detail := .undefined } }).2.2.2 (by decide)).1⟩

/-- C14, as stated, fails: with the non-blank key `sk-1`, a verify call that
succeeds with a `null` body makes `response.user` throw inside the `try`, so
`onLogin` is not called and the message of the `TypeError` is shown. -/
theorem login_null_body_skips_onLogin :
    isBlank "sk-1" = false ∧
    (Login.handleSubmit "Cannot read properties of null" (.resolved none)
      { apiKey := "sk-1", loading := false, error := .str "" }).requests
        = [api.verifyApiKey "sk-1"] ∧
    (Login.handleSubmit "Cannot read properties of null" (.resolved none)
      { apiKey := "sk-1", loading := false, error := .str "" }).logins = [] ∧
    (Login.handleSubmit "Cannot read properties of null" (.resolved none)
      { apiKey := "sk-1", loading := false, error := .str "" }).state.error
        = .str "Cannot read properties of null" := by
  refine ⟨by decide, by decide, by decide, by decide⟩

/-- C14, amended: `Login.handleSubmit` calls `onLogin` if and only if the
entered key `k` is non-blank and `api.verifyApiKey(k)` resolves with a body `r`
other than `null`/`undefined`, and then exactly once, with `(k, r.user)` when
`r.user` is truthy and with `(k, r)` otherwise; for a blank key no verify
request is made and the error is `Please enter an API key`. -/
theorem login_calls_onLogin (typeErrorMessage : String) (verify : Login.VerifyOutcome)
    (s : Login.State) :
    ((Login.handleSubmit typeErrorMessage verify s).logins ≠ [] ↔
      (isBlank s.apiKey = false ∧ ∃ r, verify = .resolved (some r))) ∧
    (∀ r : Login.VerifyResponse, isBlank s.apiKey = false → verify = .resolved (some r) →
      (Login.handleSubmit typeErrorMessage verify s).requests = [api.verifyApiKey s.apiKey] ∧
      (r.user.truthy = true →
        (Login.handleSubmit typeErrorMessage verify s).logins = [(s.apiKey, .user r.user)]) ∧
      (r.user.truthy = false →
        (Login.handleSubmit typeErrorMessage verify s).logins = [(s.apiKey, .response r)])) ∧
    (isBlank s.apiKey = true →
      (Login.handleSubmit typeErrorMessage verify s).requests = [] ∧
      (Login.handleSubmit typeErrorMessage verify s).logins = [] ∧
      (Login.handleSubmit typeErrorMessage verify s).state.error
        = .str "Please enter an API key") := by
  by_cases hb : isBlank s.apiKey = true
  · refine ⟨?_, ?_, ?_⟩
    · simp [Login.handleSubmit, hb]
    · intro r hnb
      rw [hb] at hnb
      cases hnb
    · intro _
      simp [Login.handleSubmit, hb]
  · have hb2 : isBlank s.apiKey = false := by simpa using hb
    refine ⟨?_, ?_, ?_⟩
    · rcases verify with ⟨err, m⟩ | (_ | r)
      · simp [Login.handleSubmit, hb2]
      · simp [Login.handleSubmit, hb2]
      · simp [Login.handleSubmit, hb2]
    · intro r _ hv
      subst hv
      refine ⟨by simp [Login.handleSubmit, hb2], ?_, ?_⟩
      · intro ht
        simp [Login.handleSubmit, hb2, ht]
      · intro ht
        simp [Login.handleSubmit, hb2, ht]
    · intro h
      exact absurd h hb

/-- Witness of the amended C14: the key `sk-1` verified with a body whose `user`
field is a record, and the blank key of two spaces. -/
theorem login_calls_onLogin_witness :
    (Login.handleSubmit "Cannot read properties of null"
      (.resolved (some { status := .str "valid",
                         user := .record { id := "u2", name := "ann",
                                           role := .str "member", credits := .num 3 } }))
      { apiKey := "sk-1", loading := false, error := .str "" }).logins =
      [("sk-1", .user (.record { id := "u2", name := "ann", role := .str "member",
                                 credits := .num 3 }))] ∧
    (Login.handleSubmit "Cannot read properties of null" (.resolved none)
      { apiKey := "  ", loading := false, error := .str "" }).requests = [] :=
  ⟨((login_calls_onLogin "Cannot read properties of null"
      (.resolved (some { status := .str "valid",
                         user := .record { id := "u2", name := "ann",
                                           role := .str "member", credits := .num 3 } }))
      { apiKey := "sk-1", loading := false, error := .str "" }).2.1
      { status := .str "valid",
        user := .record { id := "u2", name := "ann", role := .str "member",
                          credits := .num 3 } }
      (by decide) rfl).2.1 rfl,
   ((login_calls_onLogin "Cannot read properties of null" (.resolved none)
      { apiKey := "  ", loading := false, error := .str "" }).2.2 (by decide)).1⟩

/-- Past the guard of `TerminalInput`, `Dashboard.handleCommandSubmit` returns
an object, so that `result.error` can be read. -/
theorem handleCommandSubmit_returns_object (user : User) (c : String)
    (exec : Except JsError (Option ExecResult))
    (history : Except JsError (List CommandEvent)) (q : Dashboard.State)
    (hblank : isBlank c = false) :
    ∃ e : Prim, (Dashboard.handleCommandSubmit user c exec history q).2.2.getError = some e := by
  rcases exec with err | (_ | result)
  · exact ⟨err.detail.or (.str "Failed to execute command"), by
      simp [Dashboard.handleCommandSubmit, hblank, SubmitResult.getError]⟩
  · exact ⟨typeError.detail.or (.str "Failed to execute command"), by
      simp [Dashboard.handleCommandSubmit, hblank, SubmitResult.getError]⟩
  · by_cases hs : result.status = .str "INSUFFICIENT_CREDITS"
    · exact ⟨result.message, by
        simp [Dashboard.handleCommandSubmit, hblank, hs, SubmitResult.getError]⟩
    · exact ⟨result.error, by
        simp [Dashboard.handleCommandSubmit, hblank, hs, SubmitResult.getError]⟩

/-- C16: for every result object returned by `onSubmit` (field `error` read as
`error`, field `status` as `status`), `TerminalInput.handleSubmit` adds to the
effects of `onSubmit` exactly the toast of the first applicable case: truthy
`error` gives `Command Failed`; otherwise status `EXECUTED` gives
`Command Executed`, `BLOCKED` gives `Command Blocked`, `NO_MATCH` gives
`No Rule Match`, and any other status gives no toast; the command input is
cleared in every case. The handler passed by `Dashboard` always returns such an
object once the guard is passed. -/
theorem handleSubmit_toast_selection {σ : Type}
    (onSubmit : String → σ → σ × List Effect × SubmitResult) (s : TerminalInput.State)
    (p : σ) (error : Prim) (hblank : isBlank s.command = false)
    (herr : (onSubmit s.command p).2.2.getError = some error) :
    ((TerminalInput.handleSubmit onSubmit false s p).1.command = "" ∧
     (error.truthy = true →
       (TerminalInput.handleSubmit onSubmit false s p).2.2 =
         (onSubmit s.command p).2.1 ++
           [.toast { variant := some "destructive", title := "Command Failed",
                     description := error, className := none }]) ∧
     (error.truthy = false → (onSubmit s.command p).2.2.getStatus = .str "EXECUTED" →
       (TerminalInput.handleSubmit onSubmit false s p).2.2 =
         (onSubmit s.command p).2.1 ++
           [.toast { variant := none, title := "Command Executed",
                     description := .str ("Successfully executed: " ++ s.command),
                     className := some "bg-green-950 border-green-900 text-green-400" }]) ∧
     (error.truthy = false → (onSubmit s.command p).2.2.getStatus = .str "BLOCKED" →
       (TerminalInput.handleSubmit onSubmit false s p).2.2 =
         (onSubmit s.command p).2.1 ++
           [.toast { variant := some "destructive", title := "Command Blocked",
                     description := .str "Security policy prevented execution",
                     className := none }]) ∧
     (error.truthy = false → (onSubmit s.command p).2.2.getStatus = .str "NO_MATCH" →
       (TerminalInput.handleSubmit onSubmit false s p).2.2 =
         (onSubmit s.command p).2.1 ++
           [.toast { variant := none, title := "No Rule Match",
                     description := .str "Command did not match any configured rules",
                     className := some "bg-yellow-950 border-yellow-900 text-yellow-400" }]) ∧
     (error.truthy = false → (onSubmit s.command p).2.2.getStatus ≠ .str "EXECUTED" →
       (onSubmit s.command p).2.2.getStatus ≠ .str "BLOCKED" →
       (onSubmit s.command p).2.2.getStatus ≠ .str "NO_MATCH" →
       (TerminalInput.handleSubmit onSubmit false s p).2.2 = (onSubmit s.command p).2.1)) ∧
    (∀ (user : User) (c : String) (exec : Except JsError (Option ExecResult))
        (history : Except JsError (List CommandEvent)) (q : Dashboard.State),
      isBlank c = false →
        ∃ e : Prim,
          (Dashboard.handleCommandSubmit user c exec history q).2.2.getError = some e) := by
  refine ⟨⟨?_, ?_, ?_, ?_, ?_, ?_⟩, fun user c exec history q hb =>
    handleCommandSubmit_returns_object user c exec history q hb⟩
  · unfold TerminalInput.handleSubmit
    simp only [hblank, Bool.or_self, Bool.false_eq_true, if_false, herr]
    cases TerminalInput.resultToast s.command error (onSubmit s.command p).2.2.getStatus <;> rfl
  · intro ht
    simp [TerminalInput.handleSubmit, hblank, herr, TerminalInput.resultToast, ht]
  · intro ht hst
    simp [TerminalInput.handleSubmit, hblank, herr, TerminalInput.resultToast, ht, hst]
  · intro ht hst
    simp [TerminalInput.handleSubmit, hblank, herr, TerminalInput.resultToast, ht, hst]
  · intro ht hst
    simp [TerminalInput.handleSubmit, hblank, herr, TerminalInput.resultToast, ht, hst]
  · intro ht h1 h2 h3
    simp [TerminalInput.handleSubmit, hblank, herr, TerminalInput.resultToast, ht, h1, h2, h3]

/-- Witness of C16: a handler without effects that returns a `BLOCKED` result
for the command `rm -rf /`. -/
theorem handleSubmit_toast_selection_witness :
    (TerminalInput.handleSubmit
      (fun (_ : String) (q : Unit) =>
        (q, ([] : List Effect),
          SubmitResult.result { status := .str "BLOCKED", remaining_credits := .num 3,
                                message := .undefined, error := .undefined }))
      false { command := "rm -rf /" } ()).1.command = "" ∧
    (TerminalInput.handleSubmit
      (fun (_ : String) (q : Unit) =>
        (q, ([] : List Effect),
          SubmitResult.result { status := .str "BLOCKED", remaining_credits := .num 3,
                                message := .undefined, error := .undefined }))
      false { command := "rm -rf /" } ()).2.2 =
      [] ++ [.toast { variant := some "destructive", title := "Command Blocked",
                      description := .str "Security policy prevented execution",
                      className := none }] :=
  ⟨(handleSubmit_toast_selection
      (fun (_ : String) (q : Unit) =>
        (q, ([] : List Effect),
          SubmitResult.result { status := .str "BLOCKED", remaining_credits := .num 3,
                                message := .undefined, error := .undefined }))
      { command := "rm -rf /" } () .undefined (by decide) rfl).1.1,
   (handleSubmit_toast_selection
      (fun (_ : String) (q : Unit) =>
        (q, ([] : List Effect),
          SubmitResult.result { status := .str "BLOCKED", remaining_credits := .num 3,
                                message := .undefined, error := .undefined }))
      { command := "rm -rf /" } () .undefined (by decide) rfl).1.2.2.2.1 rfl rfl⟩

/-- C17: in the create dialog (no rule being edited), with a non-blank pattern
that compiles, a successful `api.createRule` returning `a` makes the rules list
`a` followed by the previous list in its order (one element longer), and the
dialog is closed. -/
theorem handleSaveRule_create_prepends (regExpCompiles : String → Bool) (a : Rule)
    (s : RuleManager.State) (hcreate : s.editingRule = none)
    (hblank : isBlank s.formData.pattern = false)
    (hcompiles : regExpCompiles s.formData.pattern = true) :
    (RuleManager.handleSaveRule regExpCompiles (.ok a) s).1.rules = a :: s.rules ∧
    (RuleManager.handleSaveRule regExpCompiles (.ok a) s).1.rules.length
      = s.rules.length + 1 ∧
    (RuleManager.handleSaveRule regExpCompiles (.ok a) s).1.isDialogOpen = false ∧
    requestsOf (RuleManager.handleSaveRule regExpCompiles (.ok a) s).2
      = [api.createRule s.formData] := by
  simp [RuleManager.handleSaveRule, hcreate, hblank, hcompiles, requestsOf]

/-- Witness of C17: the rule `^ls` added to a list holding one rule. -/
theorem handleSaveRule_create_prepends_witness :
    (RuleManager.handleSaveRule RuleManager.sampleRegExpCompiles
      (.ok { id := "r2", pattern := "^ls", action := "AUTO_ACCEPT", description := "",
             is_active := true, created_at := 5, order_key := 2 })
      { rules := [{ id := "r1", pattern := "rm -rf", action := "AUTO_REJECT",
                    description := "", is_active := true, created_at := 0, order_key := 1 }],
        isDialogOpen := true, editingRule := none,
        formData := { pattern := "^ls", action := "AUTO_ACCEPT", description := "",
                      is_active := true } }).1.rules =
      [{ id := "r2", pattern := "^ls", action := "AUTO_ACCEPT", description := "",
         is_active := true, created_at := 5, order_key := 2 },
       { id := "r1", pattern := "rm -rf", action := "AUTO_REJECT",
         description := "", is_active := true, created_at := 0, order_key := 1 }] :=
  (handleSaveRule_create_prepends RuleManager.sampleRegExpCompiles
    { id := "r2", pattern := "^ls", action := "AUTO_ACCEPT", description := "",
      is_active := true, created_at := 5, order_key := 2 }
    { rules := [{ id := "r1", pattern := "rm -rf", action := "AUTO_REJECT",
                  description := "", is_active := true, created_at := 0, order_key := 1 }],
      isDialogOpen := true, editingRule := none,
      formData := { pattern := "^ls", action := "AUTO_ACCEPT", description := "",
                    is_active := true } }
    rfl (by decide) (by decide)).1

/-- C18, as stated, fails. Create: the sorted list `[r1]` (order key 1) and a
created rule `r2` with order key 2 give `[r2, r1]`, which is not sorted.
Update: the sorted list `[r1, r2]` and an update of `r1` returned with order
key 3 give a list that is not sorted. -/
theorem create_breaks_rule_order :
    (rulesSorted [{ id := "r1", pattern := "rm -rf", action := "AUTO_REJECT",
                    description := "", is_active := true, created_at := 0, order_key := 1 }] ∧
     ¬ rulesSorted (RuleManager.handleSaveRule RuleManager.sampleRegExpCompiles
        (.ok { id := "r2", pattern := "^ls", action := "AUTO_ACCEPT", description := "",
               is_active := true, created_at := 5, order_key := 2 })
        { rules := [{ id := "r1", pattern := "rm -rf", action := "AUTO_REJECT",
                      description := "", is_active := true, created_at := 0,
                      order_key := 1 }],
          isDialogOpen := true, editingRule := none,
          formData := { pattern := "^ls", action := "AUTO_ACCEPT", description := "",
                        is_active := true } }).1.rules) ∧
    (rulesSorted [{ id := "r1", pattern := "rm -rf", action := "AUTO_REJECT",
                    description := "", is_active := true, created_at := 0, order_key := 1 },
                  { id := "r2", pattern := "^ls", action := "AUTO_ACCEPT",
                    description := "", is_active := true, created_at := 5, order_key := 2 }] ∧
     ¬ rulesSorted (RuleManager.handleSaveRule RuleManager.sampleRegExpCompiles
        (.ok { id := "r1", pattern := "rm -r", action := "AUTO_REJECT", description := "",
               is_active := true, created_at := 0, order_key := 3 })
        { rules := [{ id := "r1", pattern := "rm -rf", action := "AUTO_REJECT",
                      description := "", is_active := true, created_at := 0,
                      order_key := 1 },
                    { id := "r2", pattern := "^ls", action := "AUTO_ACCEPT",
                      description := "", is_active := true, created_at := 5,
                      order_key := 2 }],
          isDialogOpen := true,
          editingRule := some { id := "r1", pattern := "rm -rf", action := "AUTO_REJECT",
                                description := "", is_active := true, created_at := 0,
                                order_key := 1 },
          formData := { pattern := "rm -r", action := "AUTO_REJECT", description := "",
                        is_active := true } }).1.rules) := by
  refine ⟨⟨by decide, by decide⟩, by decide, by decide⟩

/-- The order of two rules depends only on their order key, creation time and id. -/
theorem ruleLe_of_same_keys (a b a2 b2 : Rule)
    (ha : a2.order_key = a.order_key ∧ a2.created_at = a.created_at ∧ a2.id = a.id)
    (hb : b2.order_key = b.order_key ∧ b2.created_at = b.created_at ∧ b2.id = b.id)
    (h : ruleLe a b) : ruleLe a2 b2 := by
  unfold ruleLe at h ⊢
  rw [ha.1, ha.2.1, ha.2.2, hb.1, hb.2.1, hb.2.2]
  exact h

/-- C18, amended: if the rules list is sorted in the order of `GET /rules`, it is
still sorted after every successful delete through `handleDeleteRule`, and after
a successful update through `handleSaveRule` when the returned rule keeps the
id, order key and creation time of the rule it replaces; after a successful
create the new rule is placed first whatever its order key, so the list is
sorted exactly when the new rule sorts before every rule already listed. -/
theorem rule_order_after_mutations (regExpCompiles : String → Bool)
    (s : RuleManager.State) (hs : rulesSorted s.rules) :
    (∀ ruleId : String,
      rulesSorted (RuleManager.handleDeleteRule ruleId (.ok ()) s).1.rules) ∧
    (∀ editing updated : Rule, s.editingRule = some editing →
      isBlank s.formData.pattern = false → regExpCompiles s.formData.pattern = true →
      (∀ r ∈ s.rules, r.id = editing.id →
        updated.order_key = r.order_key ∧ updated.created_at = r.created_at ∧
          updated.id = r.id) →
      rulesSorted (RuleManager.handleSaveRule regExpCompiles (.ok updated) s).1.rules) ∧
    (∀ added : Rule, s.editingRule = none →
      isBlank s.formData.pattern = false → regExpCompiles s.formData.pattern = true →
      (RuleManager.handleSaveRule regExpCompiles (.ok added) s).1.rules = added :: s.rules ∧
      (rulesSorted (RuleManager.handleSaveRule regExpCompiles (.ok added) s).1.rules ↔
        ∀ r ∈ s.rules, ruleLe added r)) := by
  refine ⟨?_, ?_, ?_⟩
  · intro ruleId
    simp only [RuleManager.handleDeleteRule]
    exact List.Pairwise.filter _ hs
  · intro editing updated hedit hblank hcompiles hkeys
    have hrules : (RuleManager.handleSaveRule regExpCompiles (.ok updated) s).1.rules =
        s.rules.map (fun r => if r.id = editing.id then updated else r) := by
      simp [RuleManager.handleSaveRule, hedit, hblank, hcompiles]
    rw [hrules]
    unfold rulesSorted at hs ⊢
    rw [List.pairwise_map]
    refine List.Pairwise.imp_of_mem ?_ hs
    intro a b ha hb hab
    have key : ∀ r ∈ s.rules,
        (if r.id = editing.id then updated else r).order_key = r.order_key ∧
        (if r.id = editing.id then updated else r).created_at = r.created_at ∧
        (if r.id = editing.id then updated else r).id = r.id := by
      intro r hr
      by_cases hid : r.id = editing.id
      · simpa [hid] using hkeys r hr hid
      · simp [hid]
    exact ruleLe_of_same_keys a b _ _ (key a ha) (key b hb) hab
  · intro added hcreate hblank hcompiles
    have hrules : (RuleManager.handleSaveRule regExpCompiles (.ok added) s).1.rules =
        added :: s.rules := by
      simp [RuleManager.handleSaveRule, hcreate, hblank, hcompiles]
    rw [hrules]
    refine ⟨rfl, ?_⟩
    unfold rulesSorted at hs ⊢
    rw [List.pairwise_cons]
    exact ⟨fun h => h.1, fun h => ⟨h, hs⟩⟩

/-- Witness of the amended C18 on the sorted list `[r1, r2]`: deleting `r1`;
updating `r1` with a rule that keeps its keys; creating a rule with order key 0. -/
theorem rule_order_after_mutations_witness :
    rulesSorted (RuleManager.handleDeleteRule "r1" (.ok ())
      { rules := [{ id := "r1", pattern := "rm -rf", action := "AUTO_REJECT",
                    description := "", is_active := true, created_at := 0, order_key := 1 },
                  { id := "r2", pattern := "^ls", action := "AUTO_ACCEPT",
                    description := "", is_active := true, created_at := 5, order_key := 2 }],
        isDialogOpen := true, editingRule := none,
        formData := { pattern := "^ls", action := "AUTO_ACCEPT", description := "",
                      is_active := true } }).1.rules ∧
    rulesSorted (RuleManager.handleSaveRule RuleManager.sampleRegExpCompiles
      (.ok { id := "r1", pattern := "rm -r", action := "AUTO_REJECT", description := "",
             is_active := true, created_at := 0, order_key := 1 })
      { rules := [{ id := "r1", pattern := "rm -rf", action := "AUTO_REJECT",
                    description := "", is_active := true, created_at := 0, order_key := 1 },
                  { id := "r2", pattern := "^ls", action := "AUTO_ACCEPT",
                    description := "", is_active := true, created_at := 5, order_key := 2 }],
        isDialogOpen := true,
        editingRule := some { id := "r1", pattern := "rm -rf", action := "AUTO_REJECT",
                              description := "", is_active := true, created_at := 0,
                              order_key := 1 },
        formData := { pattern := "rm -r", action := "AUTO_REJECT", description := "",
                      is_active := true } }).1.rules ∧
    rulesSorted (RuleManager.handleSaveRule RuleManager.sampleRegExpCompiles
      (.ok { id := "r0", pattern := "^pwd", action := "AUTO_ACCEPT", description := "",
             is_active := true, created_at := 9, order_key := 0 })
      { rules := [{ id := "r1", pattern := "rm -rf", action := "AUTO_REJECT",
                    description := "", is_active := true, created_at := 0, order_key := 1 },
                  { id := "r2", pattern := "^ls", action := "AUTO_ACCEPT",
                    description := "", is_active := true, created_at := 5, order_key := 2 }],
        isDialogOpen := true, editingRule := none,
        formData := { pattern := "^pwd", action := "AUTO_ACCEPT", description := "",
                      is_active := true } }).1.rules :=
  ⟨(rule_order_after_mutations RuleManager.sampleRegExpCompiles
      { rules := [{ id := "r1", pattern := "rm -rf", action := "AUTO_REJECT",
                    description := "", is_active := true, created_at := 0, order_key := 1 },
                  { id := "r2", pattern := "^ls", action := "AUTO_ACCEPT",
                    description := "", is_active := true, created_at := 5, order_key := 2 }],
        isDialogOpen := true, editingRule := none,
        formData := { pattern := "^ls", action := "AUTO_ACCEPT", description := "",
                      is_active := true } }
      (by decide)).1 "r1",
   (rule_order_after_mutations RuleManager.sampleRegExpCompiles
      { rules := [{ id := "r1", pattern := "rm -rf", action := "AUTO_REJECT",
                    description := "", is_active := true, created_at := 0, order_key := 1 },
                  { id := "r2", pattern := "^ls", action := "AUTO_ACCEPT",
                    description := "", is_active := true, created_at := 5, order_key := 2 }],
        isDialogOpen := true,
        editingRule := some { id := "r1", pattern := "rm -rf", action := "AUTO_REJECT",
                              description := "", is_active := true, created_at := 0,
                              order_key := 1 },
        formData := { pattern := "rm -r", action := "AUTO_REJECT", description := "",
                      is_active := true } }
      (by decide)).2.1
      { id := "r1", pattern := "rm -rf", action := "AUTO_REJECT", description := "",
        is_active := true, created_at := 0, order_key := 1 }
      { id := "r1", pattern := "rm -r", action := "AUTO_REJECT", description := "",
        is_active := true, created_at := 0, order_key := 1 }
      rfl (by decide) (by decide) (by decide),
   ((rule_order_after_mutations RuleManager.sampleRegExpCompiles
      { rules := [{ id := "r1", pattern := "rm -rf", action := "AUTO_REJECT",
                    description := "", is_active := true, created_at := 0, order_key := 1 },
                  { id := "r2", pattern := "^ls", action := "AUTO_ACCEPT",
                    description := "", is_active := true, created_at := 5, order_key := 2 }],
        isDialogOpen := true, editingRule := none,
        formData := { pattern := "^pwd", action := "AUTO_ACCEPT", description := "",
                      is_active := true } }
      (by decide)).2.2
      { id := "r0", pattern := "^pwd", action := "AUTO_ACCEPT", description := "",
        is_active := true, created_at := 9, order_key := 0 }
      rfl (by decide) (by decide)).2.2 (by decide)⟩

/-- C19: while a rule is being edited (non-blank pattern that compiles), a
successful `api.updateRule` returning `updated` gives a rules list of the same
length in which every position that held a rule with the id of the edited rule
holds `updated` and every other position holds what it held before; this holds
for every list, in particular for one with pairwise distinct ids. When the
update request fails the list is unchanged. -/
theorem handleSaveRule_update_in_place (regExpCompiles : String → Bool)
    (s : RuleManager.State) (editing updated : Rule) (err : JsError)
    (hedit : s.editingRule = some editing)
    (hblank : isBlank s.formData.pattern = false)
    (hcompiles : regExpCompiles s.formData.pattern = true) :
    (RuleManager.handleSaveRule regExpCompiles (.ok updated) s).1.rules.length
      = s.rules.length ∧
    (∀ (i : Nat) (r : Rule), s.rules[i]? = some r →
      (r.id = editing.id →
        (RuleManager.handleSaveRule regExpCompiles (.ok updated) s).1.rules[i]?
          = some updated) ∧
      (r.id ≠ editing.id →
        (RuleManager.handleSaveRule regExpCompiles (.ok updated) s).1.rules[i]? = some r)) ∧
    requestsOf (RuleManager.handleSaveRule regExpCompiles (.ok updated) s).2
      = [api.updateRule editing.id s.formData] ∧
    (RuleManager.handleSaveRule regExpCompiles (.error err) s).1.rules = s.rules := by
  have hrules : (RuleManager.handleSaveRule regExpCompiles (.ok updated) s).1.rules =
      s.rules.map (fun r => if r.id = editing.id then updated else r) := by
    simp [RuleManager.handleSaveRule, hedit, hblank, hcompiles]
  refine ⟨by rw [hrules, List.length_map], ?_, ?_, ?_⟩
  · intro i r hr
    rw [hrules, List.getElem?_map, hr]
    constructor
    · intro hid
      simp [hid]
    · intro hid
      simp [hid]
  · simp [RuleManager.handleSaveRule, hedit, hblank, hcompiles, requestsOf]
  · simp [RuleManager.handleSaveRule, hedit, hblank, hcompiles]

/-- Witness of C19: editing `r1` in the list `[r1, r2]`; position 0 takes the
returned rule and position 1 keeps `r2`. -/
theorem handleSaveRule_update_in_place_witness :
    (RuleManager.handleSaveRule RuleManager.sampleRegExpCompiles
      (.ok { id := "r1", pattern := "rm -r", action := "AUTO_REJECT", description := "",
             is_active := true, created_at := 0, order_key := 1 })
      { rules := [{ id := "r1", pattern := "rm -rf", action := "AUTO_REJECT",
                    description := "", is_active := true, created_at := 0, order_key := 1 },
                  { id := "r2", pattern := "^ls", action := "AUTO_ACCEPT",
                    description := "", is_active := true, created_at := 5, order_key := 2 }],
        isDialogOpen := true,
        editingRule := some { id := "r1", pattern := "rm -rf", action := "AUTO_REJECT",
                              description := "", is_active := true, created_at := 0,
                              order_key := 1 },
        formData := { pattern := "rm -r", action := "AUTO_REJECT", description := "",
                      is_active := true } }).1.rules[0]? =
      some { id := "r1", pattern := "rm -r", action := "AUTO_REJECT", description := "",
             is_active := true, created_at := 0, order_key := 1 } :=
  ((handleSaveRule_update_in_place RuleManager.sampleRegExpCompiles
      { rules := [{ id := "r1", pattern := "rm -rf", action := "AUTO_REJECT",
                    description := "", is_active := true, created_at := 0, order_key := 1 },
                  { id := "r2", pattern := "^ls", action := "AUTO_ACCEPT",
                    description := "", is_active := true, created_at := 5, order_key := 2 }],
        isDialogOpen := true,
        editingRule := some { id := "r1", pattern := "rm -rf", action := "AUTO_REJECT",
                              description := "", is_active := true, created_at := 0,
                              order_key := 1 },
        formData := { pattern := "rm -r", action := "AUTO_REJECT", description := "",
                      is_active := true } }
      { id := "r1", pattern := "rm -rf", action := "AUTO_REJECT", description := "",
        is_active := true, created_at := 0, order_key := 1 }
      { id := "r1", pattern := "rm -r", action := "AUTO_REJECT", description := "",
        is_active := true, created_at := 0, order_key := 1 }
      typeError rfl (by decide) (by decide)).2.1 0
      { id := "r1", pattern := "rm -rf", action := "AUTO_REJECT", description := "",
        is_active := true, created_at := 0, order_key := 1 }
      rfl).1 rfl

/-- C20: when the input parses to `n ≥ 0`, a user `sel` is selected and
`api.updateUserCredits` succeeds, the state of `UserManager.handleUpdateCredits`
is the users reload applied to the state `before` set by the handler (the state
that remains when the reload fails), the requests being
`updateUserCredits(sel.id, n)` and then the reload. The users list of `before`
has the length and order of the previous one: a position that held a user with
another id holds the same user, and a position that held a user `u` with the id
of `sel` holds `u` with `credits` replaced by `n`. -/
theorem handleUpdateCredits_users_before_reload (s : UserManager.State) (n : Int)
    (sel : User) (err : JsError) (hparse : parseInt s.creditUpdate = some n) (hn : 0 ≤ n)
    (hsel : s.selectedUser = some sel) :
    (∀ reload : Except JsError (List User),
      (UserManager.handleUpdateCredits (.ok ()) reload s).1 =
        (UserManager.loadUsers reload
          (UserManager.handleUpdateCredits (.ok ()) (.error err) s).1).1 ∧
      requestsOf (UserManager.handleUpdateCredits (.ok ()) reload s).2 =
        [api.updateUserCredits sel.id n, api.getAllUsers]) ∧
    (UserManager.handleUpdateCredits (.ok ()) (.error err) s).1.users.length
      = s.users.length ∧
    (∀ (i : Nat) (u : User), s.users[i]? = some u →
      (u.id ≠ sel.id →
        (UserManager.handleUpdateCredits (.ok ()) (.error err) s).1.users[i]? = some u) ∧
      (u.id = sel.id →
        (UserManager.handleUpdateCredits (.ok ()) (.error err) s).1.users[i]?
          = some { u with credits := .num n })) := by
  have hn2 : ¬ n < 0 := by omega
  have hbefore : (UserManager.handleUpdateCredits (.ok ()) (.error err) s).1 =
      { s with
        users := s.users.map (fun u =>
          if u.id = sel.id then { u with credits := .num n } else u),
        isEditDialogOpen := false, selectedUser := none, creditUpdate := "" } := by
    simp [UserManager.handleUpdateCredits, hparse, hn2, hsel, UserManager.loadUsers]
  rw [hbefore]
  refine ⟨?_, ?_, ?_⟩
  · intro reload
    cases reload <;>
      simp [UserManager.handleUpdateCredits, hparse, hn2, hsel, UserManager.loadUsers,
        requestsOf]
  · simp
  · intro i u hu
    simp only [List.getElem?_map, hu, Option.map_some']
    constructor
    · intro hid
      simp [hid]
    · intro hid
      simp [hid]

/-- Witness of C20: with the users `[u1, u2]`, `u2` selected and the input `7`,
the list set before the reload holds `u2` with 7 credits at position 1. -/
theorem handleUpdateCredits_users_before_reload_witness :
    (UserManager.handleUpdateCredits (.ok ()) (.error typeError)
      { UserManager.init with
          users := [{ id := "u1", name := "root", role := .str "admin", credits := .num 9 },
                    { id := "u2", name := "ann", role := .str "member", credits := .num 1 }],
          selectedUser := some { id := "u2", name := "ann", role := .str "member",
                                 credits := .num 1 },
          isEditDialogOpen := true, creditUpdate := "7" }).1.users[1]?
      = some { id := "u2", name := "ann", role := .str "member", credits := .num 7 } :=
  ((handleUpdateCredits_users_before_reload
    { UserManager.init with
        users := [{ id := "u1", name := "root", role := .str "admin", credits := .num 9 },
                  { id := "u2", name := "ann", role := .str "member", credits := .num 1 }],
        selectedUser := some { id := "u2", name := "ann", role := .str "member",
                               credits := .num 1 },
        isEditDialogOpen := true, creditUpdate := "7" }
    7 { id := "u2", name := "ann", role := .str "member", credits := .num 1 } typeError
    (by decide) (by decide) rfl).2.2 1
    { id := "u2", name := "ann", role := .str "member", credits := .num 1 } rfl).2 rfl

/-! ### Claims C21 to C26 -/

/-- C21 at the failing input: the admin `u1` (10 credits in the header) sets
their own credits to 25; the request `updateUserCredits("u1", 25)` is made and
the users list shows 25, but `onCreditsUpdate` is not invoked and the credits
held by `Dashboard` are still 10. -/
theorem own_credit_update_skips_onCreditsUpdate :
    requestsOf (UserManager.handleUpdateCreditsWithProps Dashboard.handleCreditsUpdate
      (.ok ()) (.ok [{ id := "u1", name := "root", role := .str "admin", credits := .num 25 }])
      { UserManager.init with
          users := [{ id := "u1", name := "root", role := .str "admin", credits := .num 10 }],
          selectedUser := some { id := "u1", name := "root", role := .str "admin",
                                 credits := .num 10 },
          isEditDialogOpen := true, creditUpdate := "25" }
      (Dashboard.init { id := "u1", name := "root", role := .str "admin",
                        credits := .num 10 })).2.2
      = [api.updateUserCredits "u1" 25, api.getAllUsers] ∧
    (UserManager.handleUpdateCreditsWithProps Dashboard.handleCreditsUpdate
      (.ok ()) (.ok [{ id := "u1", name := "root", role := .str "admin", credits := .num 25 }])
      { UserManager.init with
          users := [{ id := "u1", name := "root", role := .str "admin", credits := .num 10 }],
          selectedUser := some { id := "u1", name := "root", role := .str "admin",
                                 credits := .num 10 },
          isEditDialogOpen := true, creditUpdate := "25" }
      (Dashboard.init { id := "u1", name := "root", role := .str "admin",
                        credits := .num 10 })).1.users
      = [{ id := "u1", name := "root", role := .str "admin", credits := .num 25 }] ∧
    (UserManager.handleUpdateCreditsWithProps Dashboard.handleCreditsUpdate
      (.ok ()) (.ok [{ id := "u1", name := "root", role := .str "admin", credits := .num 25 }])
      { UserManager.init with
          users := [{ id := "u1", name := "root", role := .str "admin", credits := .num 10 }],
          selectedUser := some { id := "u1", name := "root", role := .str "admin",
                                 credits := .num 10 },
          isEditDialogOpen := true, creditUpdate := "25" }
      (Dashboard.init { id := "u1", name := "root", role := .str "admin",
                        credits := .num 10 })).2.1.credits
      = .num 10 := by
  refine ⟨by decide, by decide, by decide⟩

/-- Whatever the input and the outcome, `handleUpdateCredits` leaves the state of
the parent as it was: the callback is never invoked. -/
theorem handleUpdateCredits_leaves_parent {σ : Type} (onCreditsUpdate : Prim → σ → σ)
    (update : Except JsError Unit) (reload : Except JsError (List User))
    (s : UserManager.State) (parent : σ) :
    (UserManager.handleUpdateCreditsWithProps onCreditsUpdate update reload s parent).2.1
      = parent := rfl

/-- C22 at the failing inputs: with user `u2` selected, the texts `1e3`, `3.7`
and `12abc` are not rejected: the handler sends the credits 1, 3 and 12, the
value of their leading digits; the empty text is rejected with
`Please enter a valid number` and no request. -/
theorem numeric_text_with_suffix_is_sent :
    requestsOf (UserManager.handleUpdateCredits (.ok ()) (.ok [])
      { UserManager.init with
          selectedUser := some { id := "u2", name := "ann", role := .str "member",
                                 credits := .num 1 },
          isEditDialogOpen := true, creditUpdate := "1e3" }).2
      = [api.updateUserCredits "u2" 1, api.getAllUsers] ∧
    requestsOf (UserManager.handleUpdateCredits (.ok ()) (.ok [])
      { UserManager.init with
          selectedUser := some { id := "u2", name := "ann", role := .str "member",
                                 credits := .num 1 },
          isEditDialogOpen := true, creditUpdate := "3.7" }).2
      = [api.updateUserCredits "u2" 3, api.getAllUsers] ∧
    requestsOf (UserManager.handleUpdateCredits (.ok ()) (.ok [])
      { UserManager.init with
          selectedUser := some { id := "u2", name := "ann", role := .str "member",
                                 credits := .num 1 },
          isEditDialogOpen := true, creditUpdate := "12abc" }).2
      = [api.updateUserCredits "u2" 12, api.getAllUsers] ∧
    (UserManager.handleUpdateCredits (.ok ()) (.ok [])
      { UserManager.init with
          selectedUser := some { id := "u2", name := "ann", role := .str "member",
                                 credits := .num 1 },
          isEditDialogOpen := true, creditUpdate := "" }).2
      = [.toast { variant := some "destructive", title := "Invalid Input",
                  description := .str "Please enter a valid number", className := none }] := by
  refine ⟨by decide, by decide, by decide, by decide⟩

/-- C23: for every status value, the class of the icon of `getStatusIcon`, the
class of `getStatusColor` and the class of the status badge name one and the
same colour; it is green exactly for `EXECUTED`, red exactly for `BLOCKED` and
yellow exactly for every other value, `NO_MATCH` among them. -/
theorem status_colour_agrees (status : Prim) :
    CommandLog.classColours (CommandLog.getStatusIcon status).className
      = CommandLog.classColours (CommandLog.getStatusColor status) ∧
    CommandLog.classColours (CommandLog.statusBadgeClass status)
      = CommandLog.classColours (CommandLog.getStatusColor status) ∧
    (CommandLog.classColours (CommandLog.getStatusColor status) = [.green] ↔
      status = .str "EXECUTED") ∧
    (CommandLog.classColours (CommandLog.getStatusColor status) = [.red] ↔
      status = .str "BLOCKED") ∧
    (CommandLog.classColours (CommandLog.getStatusColor status) = [.yellow] ↔
      (status ≠ .str "EXECUTED" ∧ status ≠ .str "BLOCKED")) ∧
    CommandLog.classColours (CommandLog.getStatusColor (.str "NO_MATCH")) = [.yellow] := by
  have i1 : CommandLog.classColours "text-green-500" = [.green] := by decide
  have i2 : CommandLog.classColours "text-red-500" = [.red] := by decide
  have i3 : CommandLog.classColours "text-yellow-500" = [.yellow] := by decide
  have c1 : CommandLog.classColours "border-green-500" = [.green] := by decide
  have c2 : CommandLog.classColours "border-red-500" = [.red] := by decide
  have c3 : CommandLog.classColours "border-yellow-500" = [.yellow] := by decide
  have b1 : CommandLog.classColours "bg-green-500/10 text-green-400 border-green-500/50"
      = [.green] := by decide
  have b2 : CommandLog.classColours "bg-red-500/10 text-red-400 border-red-500/50"
      = [.red] := by decide
  have b3 : CommandLog.classColours "bg-yellow-500/10 text-yellow-400 border-yellow-500/50"
      = [.yellow] := by decide
  by_cases h1 : status = .str "EXECUTED"
  · subst h1
    simp [CommandLog.getStatusIcon, CommandLog.getStatusColor, CommandLog.statusBadgeClass,
      i1, c1, b1, c3]
  · by_cases h2 : status = .str "BLOCKED"
    · subst h2
      simp [CommandLog.getStatusIcon, CommandLog.getStatusColor, CommandLog.statusBadgeClass,
        i2, c2, b2, c3]
    · simp [CommandLog.getStatusIcon, CommandLog.getStatusColor, CommandLog.statusBadgeClass,
        h1, h2, i3, c3, b3]

/-- C24, as stated, fails: for the admin `u1`, the history is requested with
`admin_view = true` and the answer, which holds a command of user `u2`, is passed
to the log rendered with `isAdmin = false` and titled `Command History` as well
as to the one titled `System Audit Log`. -/
theorem admin_command_history_shows_audit_list :
    requestsOf (Dashboard.loadCommandHistory
      { id := "u1", name := "root", role := .str "admin", credits := .num 10 }
      (.ok [{ id := "e1", user_id := "u2", command_text := "ls", status := .str "EXECUTED" }])
      (Dashboard.init { id := "u1", name := "root", role := .str "admin",
                        credits := .num 10 })).2
      = [api.getCommandHistory (some true)] ∧
    ({ commands := [{ id := "e1", user_id := "u2", command_text := "ls",
                      status := .str "EXECUTED" }],
       isAdmin := false } : CommandLog.Props) ∈
      Dashboard.commandLogs
        { id := "u1", name := "root", role := .str "admin", credits := .num 10 }
        (Dashboard.loadCommandHistory
          { id := "u1", name := "root", role := .str "admin", credits := .num 10 }
          (.ok [{ id := "e1", user_id := "u2", command_text := "ls",
                  status := .str "EXECUTED" }])
          (Dashboard.init { id := "u1", name := "root", role := .str "admin",
                            credits := .num 10 })).1 ∧
    CommandLog.title false = "Command History" := by
  refine ⟨by decide, by decide, by decide⟩

/-- C24, amended: after a history load answered with the list `h`, requested
with `admin_view = true` exactly for an admin, every `CommandLog` rendered by
`Dashboard` receives `h`. For a member there is one log, rendered with
`isAdmin = false` (`Command History`), so its list was requested with
`admin_view = false`; for an admin there are two, the `Command History` log
(`isAdmin = false`) and the `System Audit Log` (`isAdmin = true`), both holding
the list requested with `admin_view = true`. A log with `isAdmin = true` is
rendered only for an admin. -/
theorem commandLogs_share_history (user : User) (h : List CommandEvent)
    (s : Dashboard.State) :
    requestsOf (Dashboard.loadCommandHistory user (.ok h) s).2
      = [api.getCommandHistory (some (Dashboard.isAdmin user))] ∧
    (∀ log ∈ Dashboard.commandLogs user (Dashboard.loadCommandHistory user (.ok h) s).1,
      log.commands = h) ∧
    (user.role ≠ .str "admin" →
      (api.getCommandHistory (some (Dashboard.isAdmin user))).params
        = [("admin_view", .bool false)] ∧
      Dashboard.commandLogs user (Dashboard.loadCommandHistory user (.ok h) s).1
        = [{ commands := h, isAdmin := false }]) ∧
    (user.role = .str "admin" →
      (api.getCommandHistory (some (Dashboard.isAdmin user))).params
        = [("admin_view", .bool true)] ∧
      Dashboard.commandLogs user (Dashboard.loadCommandHistory user (.ok h) s).1
        = [{ commands := h, isAdmin := false }, { commands := h, isAdmin := true }]) ∧
    CommandLog.title false = "Command History" ∧
    CommandLog.title true = "System Audit Log" := by
  refine ⟨rfl, ?_, ?_, ?_, rfl, rfl⟩
  · intro log hlog
    by_cases ha : user.role = .str "admin"
    · simp [Dashboard.commandLogs, Dashboard.isAdmin, ha, Dashboard.loadCommandHistory] at hlog
      rcases hlog with rfl | rfl <;> rfl
    · simp [Dashboard.commandLogs, Dashboard.isAdmin, ha, Dashboard.loadCommandHistory] at hlog
      rw [hlog]
  · intro ha
    simp [Dashboard.commandLogs, Dashboard.isAdmin, ha, Dashboard.loadCommandHistory,
      api.getCommandHistory]
  · intro ha
    simp [Dashboard.commandLogs, Dashboard.isAdmin, ha, Dashboard.loadCommandHistory,
      api.getCommandHistory]

/-- Witness of the amended C24: the member `u2` and the admin `u1`. -/
theorem commandLogs_share_history_witness :
    Dashboard.commandLogs
      { id := "u2", name := "ann", role := .str "member", credits := .num 3 }
      (Dashboard.loadCommandHistory
        { id := "u2", name := "ann", role := .str "member", credits := .num 3 }
        (.ok [{ id := "e1", user_id := "u2", command_text := "ls", status := .str "EXECUTED" }])
        (Dashboard.init { id := "u2", name := "ann", role := .str "member",
                          credits := .num 3 })).1
      = [{ commands := [{ id := "e1", user_id := "u2", command_text := "ls",
                          status := .str "EXECUTED" }],
           isAdmin := false }] ∧
    Dashboard.commandLogs
      { id := "u1", name := "root", role := .str "admin", credits := .num 10 }
      (Dashboard.loadCommandHistory
        { id := "u1", name := "root", role := .str "admin", credits := .num 10 }
        (.ok [{ id := "e1", user_id := "u2", command_text := "ls", status := .str "EXECUTED" }])
        (Dashboard.init { id := "u1", name := "root", role := .str "admin",
                          credits := .num 10 })).1
      = [{ commands := [{ id := "e1", user_id := "u2", command_text := "ls",
                          status := .str "EXECUTED" }],
           isAdmin := false },
         { commands := [{ id := "e1", user_id := "u2", command_text := "ls",
                          status := .str "EXECUTED" }],
           isAdmin := true }] :=
  ⟨((commandLogs_share_history
      { id := "u2", name := "ann", role := .str "member", credits := .num 3 }
      [{ id := "e1", user_id := "u2", command_text := "ls", status := .str "EXECUTED" }]
      (Dashboard.init { id := "u2", name := "ann", role := .str "member",
                        credits := .num 3 })).2.2.1 (by decide)).2,
   ((commandLogs_share_history
      { id := "u1", name := "root", role := .str "admin", credits := .num 10 }
      [{ id := "e1", user_id := "u2", command_text := "ls", status := .str "EXECUTED" }]
      (Dashboard.init { id := "u1", name := "root", role := .str "admin",
                        credits := .num 10 })).2.2.2.1 rfl).2⟩

/-- For a non-blank command `Dashboard.handleCommandSubmit` ends with
`isAnalyzing = false`, whatever the outcome of its requests. -/
theorem handleCommandSubmit_resets_isAnalyzing (user : User) (c : String)
    (exec : Except JsError (Option ExecResult))
    (history : Except JsError (List CommandEvent)) (s : Dashboard.State)
    (hblank : isBlank c = false) :
    (Dashboard.handleCommandSubmit user c exec history s).1.isAnalyzing = false := by
  rcases exec with err | (_ | result)
  · simp [Dashboard.handleCommandSubmit, hblank]
  · simp [Dashboard.handleCommandSubmit, hblank]
  · by_cases hs : result.status = .str "INSUFFICIENT_CREDITS"
    · simp [Dashboard.handleCommandSubmit, hblank, hs]
    · simp [Dashboard.handleCommandSubmit, hblank, hs]

/-- Past its guard `TerminalInput.handleSubmit` leaves the parent in the state
in which `onSubmit` left it. -/
theorem handleSubmit_parent {σ : Type}
    (onSubmit : String → σ → σ × List Effect × SubmitResult) (s : TerminalInput.State)
    (p : σ) (hblank : isBlank s.command = false) :
    (TerminalInput.handleSubmit onSubmit false s p).2.1 = (onSubmit s.command p).1 := by
  unfold TerminalInput.handleSubmit
  simp only [hblank, Bool.or_self, Bool.false_eq_true, if_false]
  cases (onSubmit s.command p).2.2.getError with
  | none => rfl
  | some e =>
    simp only
    cases TerminalInput.resultToast s.command e (onSubmit s.command p).2.2.getStatus <;> rfl

/-- The split of `handleCommandSubmit` at its first `await` agrees with the
whole function: running it on the state left by `beginCommandSubmit` gives what
running it on the state before gives. -/
theorem handleCommandSubmit_after_begin (user : User) (c : String)
    (exec : Except JsError (Option ExecResult))
    (history : Except JsError (List CommandEvent)) (s : Dashboard.State) :
    Dashboard.handleCommandSubmit user c exec history (Dashboard.beginCommandSubmit c s).1
      = Dashboard.handleCommandSubmit user c exec history s := by
  by_cases hblank : isBlank c = true
  · simp [Dashboard.beginCommandSubmit, hblank]
  · have hb : isBlank c = false := by simpa using hblank
    rcases exec with err | (_ | result)
    · simp [Dashboard.handleCommandSubmit, Dashboard.beginCommandSubmit, hb]
    · simp [Dashboard.handleCommandSubmit, Dashboard.beginCommandSubmit, hb]
    · by_cases hs : result.status = .str "INSUFFICIENT_CREDITS"
      · simp [Dashboard.handleCommandSubmit, Dashboard.beginCommandSubmit, hb, hs]
      · cases history <;>
          simp [Dashboard.handleCommandSubmit, Dashboard.beginCommandSubmit, hb, hs,
            Dashboard.loadCommandHistory]

/-- One event keeps the session in one of two shapes: idle (nothing in flight,
`isAnalyzing = false`) or busy (one non-blank command in flight,
`isAnalyzing = true`). -/
theorem sessionStep_shape (user : User) (x : Session) (e : SessionEvent)
    (hx : (x.inFlight = [] ∧ x.dashboard.isAnalyzing = false) ∨
      ∃ c, x.inFlight = [c] ∧ isBlank c = false ∧ x.dashboard.isAnalyzing = true) :
    ((sessionStep user x e).inFlight = [] ∧
        (sessionStep user x e).dashboard.isAnalyzing = false) ∨
      ∃ c, (sessionStep user x e).inFlight = [c] ∧ isBlank c = false ∧
        (sessionStep user x e).dashboard.isAnalyzing = true := by
  cases e with
  | change v => simpa [sessionStep] using hx
  | submit =>
    rcases hx with ⟨h0, ha⟩ | ⟨c, h1, hc, ha⟩
    · by_cases hb : isBlank x.terminal.command = true
      · left
        simp [sessionStep, TerminalInput.onSubmitCall, hb, h0, ha]
      · have hb2 : isBlank x.terminal.command = false := by simpa using hb
        right
        refine ⟨x.terminal.command, ?_, hb2, ?_⟩
        · simp [sessionStep, TerminalInput.onSubmitCall, hb2, h0, ha]
        · simp [sessionStep, TerminalInput.onSubmitCall, hb2, ha,
            Dashboard.beginCommandSubmit]
    · right
      refine ⟨c, ?_, hc, ?_⟩
      · simp [sessionStep, TerminalInput.onSubmitCall, ha, h1]
      · simp [sessionStep, TerminalInput.onSubmitCall, ha]
  | settle exec history =>
    rcases hx with ⟨h0, ha⟩ | ⟨c, h1, hc, ha⟩
    · left
      simp [sessionStep, h0, ha]
    · left
      have hp := handleSubmit_parent
        (fun t q => Dashboard.handleCommandSubmit user t exec history q)
        { command := c } x.dashboard hc
      have hr := handleCommandSubmit_resets_isAnalyzing user c exec history x.dashboard hc
      simp only [sessionStep, h1]
      refine ⟨trivial, ?_⟩
      simp only at hp
      rw [hp]
      exact hr

/-- Every reachable session is idle or busy with one non-blank command. -/
theorem sessionRun_shape (user : User) (events : List SessionEvent) :
    ((sessionRun user events).inFlight = [] ∧
        (sessionRun user events).dashboard.isAnalyzing = false) ∨
      ∃ c, (sessionRun user events).inFlight = [c] ∧ isBlank c = false ∧
        (sessionRun user events).dashboard.isAnalyzing = true := by
  unfold sessionRun
  induction events using List.reverseRecOn with
  | nil =>
    left
    exact ⟨rfl, rfl⟩
  | append_singleton es e ih =>
    rw [List.foldl_append]
    simp only [List.foldl_cons, List.foldl_nil]
    exact sessionStep_shape user _ e ih

/-- C25: with `isAnalyzing = true`, `TerminalInput.handleSubmit` returns at its
guard without calling `onSubmit`, whatever `onSubmit` is. In the state machine
of input changes, submissions and completions, where
`Dashboard.handleCommandSubmit` sets `isAnalyzing` before its request and resets
it at its end, at most one execute request is in flight in every reachable
state, and one is in flight exactly while `isAnalyzing` is true. -/
theorem at_most_one_execute_in_flight (user : User) (events : List SessionEvent) :
    (∀ (σ : Type) (onSubmit : String → σ → σ × List Effect × SubmitResult)
        (s : TerminalInput.State) (p : σ),
      TerminalInput.handleSubmit onSubmit true s p = (s, p, []) ∧
      TerminalInput.onSubmitCall true s = none) ∧
    (sessionRun user events).inFlight.length ≤ 1 ∧
    ((sessionRun user events).inFlight.length = 1 ↔
      (sessionRun user events).dashboard.isAnalyzing = true) := by
  refine ⟨?_, ?_, ?_⟩
  · intro σ onSubmit s p
    simp [TerminalInput.handleSubmit, TerminalInput.onSubmitCall]
  · rcases sessionRun_shape user events with ⟨h0, _⟩ | ⟨c, h1, _, _⟩
    · simp [h0]
    · simp [h1]
  · rcases sessionRun_shape user events with ⟨h0, ha⟩ | ⟨c, h1, _, ha⟩
    · simp [h0, ha]
    · simp [h1, ha]

/-- A `handleCommandSubmit` call makes requests and console output only. -/
theorem handleCommandSubmit_no_uncaught (user : User) (c : String)
    (exec : Except JsError (Option ExecResult))
    (history : Except JsError (List CommandEvent)) (s : Dashboard.State) :
    Effect.uncaughtTypeError ∉ (Dashboard.handleCommandSubmit user c exec history s).2.1 := by
  by_cases hblank : isBlank c = true
  · simp [Dashboard.handleCommandSubmit, hblank]
  · have hb : isBlank c = false := by simpa using hblank
    rcases exec with err | (_ | result)
    · simp [Dashboard.handleCommandSubmit, hb]
    · simp [Dashboard.handleCommandSubmit, hb]
    · by_cases hs : result.status = .str "INSUFFICIENT_CREDITS"
      · simp [Dashboard.handleCommandSubmit, hb, hs]
      · cases history <;>
          simp [Dashboard.handleCommandSubmit, hb, hs, Dashboard.loadCommandHistory]

/-- C26: for every non-blank command (submitted while not analyzing) and every
outcome of `api.executeCommand` (an object, a `null`/`undefined` body, or a
thrown error with or without a response), `Dashboard.handleCommandSubmit`
returns an object (never `undefined`), ends with `isAnalyzing = false`, and the
read of `result.error` in `TerminalInput.handleSubmit` does not throw. -/
theorem handleCommandSubmit_result_readable (user : User) (c : String)
    (exec : Except JsError (Option ExecResult))
    (history : Except JsError (List CommandEvent)) (s : Dashboard.State)
    (hblank : isBlank c = false) :
    (Dashboard.handleCommandSubmit user c exec history s).2.2 ≠ .undefined ∧
    (∃ e : Prim,
      (Dashboard.handleCommandSubmit user c exec history s).2.2.getError = some e) ∧
    (Dashboard.handleCommandSubmit user c exec history s).1.isAnalyzing = false ∧
    Effect.uncaughtTypeError ∉
      (TerminalInput.handleSubmit
        (fun t q => Dashboard.handleCommandSubmit user t exec history q)
        false { command := c } s).2.2 ∧
    (TerminalInput.handleSubmit
        (fun t q => Dashboard.handleCommandSubmit user t exec history q)
        false { command := c } s).1.command = "" := by
  obtain ⟨e, he⟩ := handleCommandSubmit_returns_object user c exec history s hblank
  have hno := handleCommandSubmit_no_uncaught user c exec history s
  refine ⟨?_, ⟨e, he⟩, handleCommandSubmit_resets_isAnalyzing user c exec history s hblank,
    ?_, ?_⟩
  · intro hu
    rw [hu] at he
    simp [SubmitResult.getError] at he
  · unfold TerminalInput.handleSubmit
    simp only [hblank, Bool.or_self, Bool.false_eq_true, if_false, he]
    cases TerminalInput.resultToast c e
        (Dashboard.handleCommandSubmit user c exec history s).2.2.getStatus with
    | none => simpa using hno
    | some t => simpa using hno
  · unfold TerminalInput.handleSubmit
    simp only [hblank, Bool.or_self, Bool.false_eq_true, if_false, he]
    cases TerminalInput.resultToast c e
        (Dashboard.handleCommandSubmit user c exec history s).2.2.getStatus <;> rfl

/-- Witness of C26: the command `ls` answered with a `null` body. -/
theorem handleCommandSubmit_result_readable_witness :
    (Dashboard.handleCommandSubmit
      { id := "u2", name := "ann", role := .str "member", credits := .num 3 } "ls"
      (.ok none) (.ok [])
      { credits := .num 3, commandHistory := [], isAnalyzing := true }).2.2 ≠ .undefined ∧
    (Dashboard.handleCommandSubmit
      { id := "u2", name := "ann", role := .str "member", credits := .num 3 } "ls"
      (.ok none) (.ok [])
      { credits := .num 3, commandHistory := [], isAnalyzing := true }).1.isAnalyzing = false :=
  ⟨(handleCommandSubmit_result_readable
      { id := "u2", name := "ann", role := .str "member", credits := .num 3 } "ls"
      (.ok none) (.ok [])
      { credits := .num 3, commandHistory := [], isAnalyzing := true } (by decide)).1,
   (handleCommandSubmit_result_readable
      { id := "u2", name := "ann", role := .str "member", credits := .num 3 } "ls"
      (.ok none) (.ok [])
      { credits := .num 3, commandHistory := [], isAnalyzing := true } (by decide)).2.2.1⟩

/-- The busy state is reached, and a second submission made while the first is
pending is dropped at the guard: after typing `ls` and submitting twice one
command is in flight, and after its completion none is. -/
theorem second_submit_is_dropped :
    (sessionRun { id := "u2", name := "ann", role := .str "member", credits := .num 3 }
      [.change "ls", .submit, .submit]).inFlight = ["ls"] ∧
    (sessionRun { id := "u2", name := "ann", role := .str "member", credits := .num 3 }
      [.change "ls", .submit, .submit]).dashboard.isAnalyzing = true ∧
    (sessionRun { id := "u2", name := "ann", role := .str "member", credits := .num 3 }
      [.change "ls", .submit, .submit,
       .settle (.ok (some { status := .str "EXECUTED", remaining_credits := .num 2,
                            message := .undefined, error := .undefined })) (.ok [])]).inFlight
      = [] ∧
    (sessionRun { id := "u2", name := "ann", role := .str "member", credits := .num 3 }
      [.change "ls", .submit, .submit,
       .settle (.ok (some { status := .str "EXECUTED", remaining_credits := .num 2,
                            message := .undefined, error := .undefined }))
         (.ok [])]).dashboard
      = { credits := .num 2, commandHistory := [], isAnalyzing := false } := by
  refine ⟨by decide, by decide, by decide, by decide⟩

end Unbound
